import Mathlib

/-!
# drone-synopsys-detect: the Black Duck scan plugin

Shallow embedding of `plugin/plugin.go`.  Go strings are Lean `String`s, the
Go `int` timeout is an `Int`, and the effects of `runBlackDuckScan` (the
warning written by `log.Printf`, the echo written by `fmt.Printf`, the child
process started by `cmd.Run`) are recorded as a list of events next to the
returned error.  Everything the function reads from its surroundings
(`runtime.GOOS`, the result of `exec.LookPath`, what happens to the child) is
a field of `Host`.
-/

namespace DroneSynopsysDetect

/-! ## Data model -/

/-- The `Plugin` struct (plugin.go, lines 17-29). -/
structure Plugin where
  BlackduckURL : String
  BlackduckToken : String
  BlackduckProject : String
  BlackduckOfflineMode : Bool
  BlackduckTestConnection : Bool
  BlackduckOfflineBDIO : Bool
  BlackduckTrustCerts : Bool
  BlackduckTimeout : Int
  BlackduckScanMode : String
  BLackduckProperties : String
  LogLevel : String
  deriving DecidableEq, Repr

/-- Go `error` values that can reach this program.  `errorf` is the value of
`fmt.Errorf` with no `%w` verb, `wrapf` the value of `fmt.Errorf` with one
`%w` verb (the text is the formatted message, the second field what
`errors.Unwrap` gives back), `exitError` is `*exec.ExitError` of a child that
ended without success (it carries the text of the process state, such as
`exit status 1`), `startError` is the error of a child that could not be
started, and `canceled` / `deadlineExceeded` are the two sentinel errors of
package `context`. -/
inductive GoError where
  | errorf (msg : String)
  | wrapf (msg : String) (cause : GoError)
  | exitError (state : String)
  | startError (reason : String)
  | canceled
  | deadlineExceeded
  deriving DecidableEq, Repr

/-- The method `Error()` of an error value. -/
def GoError.Error : GoError → String
  | .errorf msg => msg
  | .wrapf msg _ => msg
  | .exitError state => state
  | .startError reason => reason
  | .canceled => "context canceled"
  | .deadlineExceeded => "context deadline exceeded"

/-- The function `errors.Unwrap`. -/
def GoError.Unwrap : GoError → Option GoError
  | .wrapf _ cause => some cause
  | _ => none

/-- Whether the chain of an error holds one of the two context errors
(`errors.Is(err, context.Canceled) || errors.Is(err, context.DeadlineExceeded)`). -/
def GoError.isCancellation : GoError → Bool
  | .canceled => true
  | .deadlineExceeded => true
  | .wrapf _ cause => cause.isCancellation
  | _ => false

/-- A `context.Context`, reduced to what `ctx.Err()` returns: `none` while the
context is live, `canceled` or `deadlineExceeded` afterwards. -/
structure Context where
  Err : Option GoError
  deriving DecidableEq, Repr

/-- The context `context.Background()`: never canceled. -/
def Context.Background : Context := ⟨none⟩

/-- What the host does with a child process that it is asked to start: it
either refuses to start it (with a reason, `fork/exec` failing), or the child
runs and leaves an exit status, or the child runs and is ended by a signal. -/
inductive ChildResult where
  | notStarted (reason : String)
  | exited (status : Nat)
  | signaled (signal : String)
  deriving DecidableEq, Repr

/-- The surroundings of one run: the value of `runtime.GOOS`, the function
`exec.LookPath` (the resolved path of a program name, or the text of the error
when it is not found), and the fate of a child started with a given path and
argument vector. -/
structure Host where
  GOOS : String
  LookPath : String → Except String String
  child : String → List String → ChildResult

/-- An `exec.Cmd`, reduced to the fields this program touches: `Path`, `Args`
and the look-up error `Err` that `exec.Command` stores instead of returning. -/
structure Cmd where
  Path : String
  Args : List String
  Err : Option GoError
  deriving DecidableEq, Repr

/-- The observable effects of a run, in the order they happen. -/
inductive Event where
  | logged (msg : String)
  | printed (text : String)
  | spawned (path : String) (argv : List String)
  deriving DecidableEq, Repr

/-- How a Go function call ends: it returns its `error` result (`none` is
`nil`), or it panics. -/
inductive Outcome where
  | returned (err : Option GoError)
  | panicked (msg : String)
  deriving DecidableEq, Repr

/-! ## Library functions used by the plugin -/

/-- The function `strconv.FormatBool`. -/
def FormatBool (b : Bool) : String := if b then "true" else "false"

/-- The function `strconv.Itoa`: the decimal text of an integer, with a
leading minus sign for a negative one. -/
def Itoa (i : Int) : String :=
  if i < 0 then "-" ++ Nat.repr i.natAbs else Nat.repr i.natAbs

/-- The function `exec.Command` for a program name without a path separator
(`bash`, `powershell.exe`): the name is looked up; when found the resolved
path becomes `Path`, otherwise `Path` stays the name and the error is kept in
`Err`.  `Args` is the name followed by the arguments. -/
def Command (h : Host) (name : String) (arg : List String) : Cmd :=
  match h.LookPath name with
  | .ok lp => { Path := lp, Args := name :: arg, Err := none }
  | .error msg => { Path := name, Args := name :: arg, Err := some (.startError msg) }

/-- The method `(*exec.Cmd).String`: the arguments joined by single spaces,
with the resolved path in place of the program name when the look-up worked. -/
def Cmd.String (c : Cmd) : String :=
  match c.Err with
  | some _ => " ".intercalate c.Args
  | none => c.Args.tail.foldl (fun b a => b ++ " " ++ a) c.Path

/-- The method `(*exec.Cmd).Run`: a command whose look-up failed returns that
error and starts nothing; otherwise the child is started, and the result is
`nil` exactly when it started and exited with status 0. -/
def Cmd.Run (h : Host) (c : Cmd) : List Event × Option GoError :=
  match c.Err with
  | some e => ([], some e)
  | none =>
    match h.child c.Path c.Args with
    | .notStarted reason => ([], some (.startError reason))
    | .exited 0 => ([.spawned c.Path c.Args], none)
    | .exited (n + 1) =>
      ([.spawned c.Path c.Args], some (.exitError ("exit status " ++ Nat.repr (n + 1))))
    | .signaled signal =>
      ([.spawned c.Path c.Args], some (.exitError ("signal: " ++ signal)))

/-! ## runBlackDuckScan, piece by piece -/

/-- The message of the configuration error (plugin.go, line 45). -/
def configErrorMessage : String :=
  "BLACKDUCK_URL, BLACKDUCK_TOKEN and BLACKDUCK_PROJECT environment variables must be set"

/-- The prefix of the execution error (plugin.go, line 111). -/
def execErrorPrefix : String := "failed to execute Black Duck scan command: "

/-- The test of line 44: one of the three required fields is empty. -/
def missingRequired (p : Plugin) : Bool :=
  p.BlackduckURL == "" || p.BlackduckToken == "" || p.BlackduckProject == ""

/-- The `fmt.Sprintf` of line 55 (Windows): single quotes around the jar path
and around the three values. -/
def windowsScript (bdURL bdToken bdProject : String) : String :=
  "java -jar 'C:\\opt\\synopsys-detect-9.7.0.jar' --blackduck.url='" ++ bdURL ++
    "' --blackduck.api.token='" ++ bdToken ++
    "' --detect.project.name='" ++ bdProject ++ "'"

/-- The `fmt.Sprintf` of line 58 (other hosts): double quotes around the three
values. -/
def posixCommand (bdURL bdToken bdProject : String) : String :=
  "java -jar /opt/synopsys-detect-9.7.0.jar --blackduck.url=\"" ++ bdURL ++
    "\" --blackduck.api.token=\"" ++ bdToken ++
    "\" --detect.project.name=\"" ++ bdProject ++ "\""

/-- The variable `args` after lines 48-59: three elements on Windows, the nil
slice elsewhere. -/
def initialArgs (goos : String) (p : Plugin) : List String :=
  if goos == "windows" then
    ["powershell.exe", "-Command",
      windowsScript p.BlackduckURL p.BlackduckToken p.BlackduckProject]
  else []

/-- The variable `command` after lines 48-59: empty on Windows, the scanner
invocation elsewhere. -/
def initialCommand (goos : String) (p : Plugin) : String :=
  if goos == "windows" then ""
  else posixCommand p.BlackduckURL p.BlackduckToken p.BlackduckProject

/-- Lines 83-90: the scan mode is appended when it is one of the three known
values; another non-empty value is left out. -/
def appendScanMode (additionalArgs : String) (mode : String) : String :=
  if mode != "" then
    if mode == "RAPID" || mode == "STATELESS" || mode == "INTELLIGENT" then
      additionalArgs ++ (" --detect.blackduck.scan.mode=" ++ mode)
    else additionalArgs
  else additionalArgs

/-- The variable `additionalArgs` after lines 61-94, built by the same
sequence of conditional appends. -/
def additionalArgs (p : Plugin) : String :=
  let a0 : String := ""
  let a1 := if p.BlackduckOfflineMode then
    a0 ++ (" --blackduck.offline.mode=" ++ FormatBool p.BlackduckOfflineMode) else a0
  let a2 := if p.BlackduckTestConnection then
    a1 ++ (" --detect.test.connection=" ++ FormatBool p.BlackduckTestConnection) else a1
  let a3 := if p.BlackduckOfflineBDIO then
    a2 ++ (" --blackduck.offline.mode.force.bdio=" ++ FormatBool p.BlackduckOfflineBDIO) else a2
  let a4 := if p.BlackduckTrustCerts then
    a3 ++ (" --blackduck.trust.cert=" ++ FormatBool p.BlackduckTrustCerts) else a3
  let a5 := if p.BlackduckTimeout > 0 then
    a4 ++ (" --detect.timeout=" ++ Itoa p.BlackduckTimeout) else a4
  let a6 := appendScanMode a5 p.BlackduckScanMode
  let a7 := if p.BLackduckProperties != "" then
    a6 ++ (" " ++ p.BLackduckProperties) else a6
  a7

/-- The `log.Printf` of line 88: written when the scan mode is non-empty and
not one of the three known values. -/
def scanModeWarning (p : Plugin) : List Event :=
  if p.BlackduckScanMode != "" then
    if p.BlackduckScanMode == "RAPID" || p.BlackduckScanMode == "STATELESS"
        || p.BlackduckScanMode == "INTELLIGENT" then []
    else
      [.logged ("Unexpected BlackduckScanMode: " ++ p.BlackduckScanMode ++
        " \n Scan mode can be RAPID, STATELESS, INTELLIGENT.")]
  else []

/-- Lines 96-104: the `exec.Cmd` that is built.  On Windows the suffix is added
to `args[2]` (an index that is out of range would panic) and the command is
`args[0]` with the arguments `args[1:]`; elsewhere it is `bash -c command`. -/
def buildCmd (h : Host) (p : Plugin) : Except String Cmd :=
  let args := initialArgs h.GOOS p
  let command := initialCommand h.GOOS p
  if h.GOOS == "windows" then
    match args.get? 2 with
    | none =>
      .error ("runtime error: index out of range [2] with length " ++ Nat.repr args.length)
    | some a2 =>
      let args := args.set 2 (a2 ++ additionalArgs p)
      match args with
      | [] => .error "runtime error: index out of range [0] with length 0"
      | a0 :: rest => .ok (Command h a0 rest)
  else
    let command := command ++ additionalArgs p
    .ok (Command h "bash" ["-c", command])

/-- The function `runBlackDuckScan` (plugin.go, lines 39-115): the events it
causes, in order, and how it ends. -/
def runBlackDuckScan (h : Host) (p : Plugin) : List Event × Outcome :=
  if missingRequired p then
    ([], .returned (some (.errorf configErrorMessage)))
  else
    match buildCmd h p with
    | .error msg => (scanModeWarning p, .panicked msg)
    | .ok cmd =>
      let echo := Event.printed ("Running command: " ++ cmd.String ++ "\n")
      let (started, err) := cmd.Run h
      match err with
      | some e =>
        (scanModeWarning p ++ [echo] ++ started,
          .returned (some (.wrapf (execErrorPrefix ++ e.Error) e)))
      | none => (scanModeWarning p ++ [echo] ++ started, .returned none)

/-- The method `(*Plugin).Exec` (plugin.go, lines 31-37): it calls
`runBlackDuckScan` on the plugin and passes its error on; the context is not
handed to anything. -/
def Plugin.Exec (h : Host) (p : Plugin) (_ctx : Context) : List Event × Outcome :=
  match runBlackDuckScan h p with
  | (events, .returned (some err)) => (events, .returned (some err))
  | (events, .returned none) => (events, .returned none)
  | (events, .panicked msg) => (events, .panicked msg)

/-- The argument vector of the command that is built, when building does not
panic. -/
def builtArgs (h : Host) (p : Plugin) : Option (List String) :=
  match buildCmd h p with
  | .ok cmd => some cmd.Args
  | .error _ => none

/-- A host that is not Windows, on which `bash` is found at `/bin/bash` and
every child exits with status 0. -/
def linuxHost : Host :=
  { GOOS := "linux",
    LookPath := fun name => .ok ("/bin/" ++ name),
    child := fun _ _ => .exited 0 }

/-- A Windows host on which `powershell.exe` is found and every child exits
with status 0. -/
def windowsHost : Host :=
  { GOOS := "windows",
    LookPath := fun name => .ok ("C:\\Windows\\" ++ name),
    child := fun _ _ => .exited 0 }

/-- The configuration of the test "basic command": the three required fields
and nothing else. -/
def basicPlugin : Plugin :=
  { BlackduckURL := "https://blackduck.example.com",
    BlackduckToken := "test-token",
    BlackduckProject := "test-project",
    BlackduckOfflineMode := false,
    BlackduckTestConnection := false,
    BlackduckOfflineBDIO := false,
    BlackduckTrustCerts := false,
    BlackduckTimeout := 0,
    BlackduckScanMode := "",
    BLackduckProperties := "",
    LogLevel := "" }

/-- The configuration of the test "offline mode", which is also the end-to-end
example of the specification. -/
def offlinePlugin : Plugin := { basicPlugin with BlackduckOfflineMode := true }

/-- The optional flags as the specification lists them: one piece per option,
in the fixed order offline mode, test connection, offline BDIO, trust
certificates, timeout, scan mode, extra properties; a piece is empty when its
option is unset. -/
def optionalFlags (p : Plugin) : String :=
  (if p.BlackduckOfflineMode then " --blackduck.offline.mode=true" else "") ++
  (if p.BlackduckTestConnection then " --detect.test.connection=true" else "") ++
  (if p.BlackduckOfflineBDIO then " --blackduck.offline.mode.force.bdio=true" else "") ++
  (if p.BlackduckTrustCerts then " --blackduck.trust.cert=true" else "") ++
  (if 0 < p.BlackduckTimeout then
    " --detect.timeout=" ++ Nat.repr p.BlackduckTimeout.toNat else "") ++
  (if p.BlackduckScanMode = "RAPID" ∨ p.BlackduckScanMode = "STATELESS"
      ∨ p.BlackduckScanMode = "INTELLIGENT" then
    " --detect.blackduck.scan.mode=" ++ p.BlackduckScanMode else "") ++
  (if p.BLackduckProperties = "" then "" else " " ++ p.BLackduckProperties)

/-- The command string that is handed to the shell: the third element of the
argument vector (after `bash -c` or `powershell.exe -Command`). -/
def shellCommand (h : Host) (p : Plugin) : Option String :=
  (builtArgs h p).bind fun argv => argv.get? 2

/-! ## Cutting a command string at its double quotes

These definitions work on the text of the command string only and know
nothing of the shell: `readMandatory` cuts the text at the double quotes that
follow the three flag names, and `occurrences` counts the positions at which a
text occurs.  How bash reads the string is the subject of `readWords`
below. -/

/-- Removes the literal `lit` from the front of `s`, if `s` starts with it. -/
def dropLiteral : List Char → List Char → Option (List Char)
  | [], s => some s
  | _ :: _, [] => none
  | c :: lit, d :: s => if c = d then dropLiteral lit s else none

/-- Splits `s` at its first double quote: the text before it and the text
after it.  There is no result when `s` holds no double quote. -/
def untilQuote : List Char → Option (List Char × List Char)
  | [] => none
  | c :: s =>
    if c = '"' then some ([], s)
    else match untilQuote s with
      | some (v, rest) => some (c :: v, rest)
      | none => none

/-- Cuts a POSIX command string at its double quotes, as text: after the
scanner invocation and `--blackduck.url=` the text between the opening double
quote and the next double quote, then ` --blackduck.api.token=` and the text
up to the next double quote, then ` --detect.project.name=` and the text up
to the next double quote; what follows is the remainder.  This is not how the
shell reads the string (see `readWords`); it serves to compare two command
strings. -/
def readMandatory (cmd : String) : Option (String × String × String × String) :=
  match dropLiteral "java -jar /opt/synopsys-detect-9.7.0.jar --blackduck.url=\"".data cmd.data with
  | none => none
  | some s1 =>
    match untilQuote s1 with
    | none => none
    | some (u, s2) =>
      match dropLiteral " --blackduck.api.token=\"".data s2 with
      | none => none
      | some s3 =>
        match untilQuote s3 with
        | none => none
        | some (t, s4) =>
          match dropLiteral " --detect.project.name=\"".data s4 with
          | none => none
          | some s5 =>
            match untilQuote s5 with
            | none => none
            | some (pr, s6) => some (⟨u⟩, ⟨t⟩, ⟨pr⟩, ⟨s6⟩)

/-- The number of positions of `s` at which the text `pat` starts. -/
def occurrences (pat : List Char) : List Char → Nat
  | [] => if pat.isEmpty then 1 else 0
  | c :: s => (if pat.isPrefixOf (c :: s) then 1 else 0) + occurrences pat s

/-- The number of occurrences of the text `flag` in the string `s`. -/
def countOccurrences (flag s : String) : Nat := occurrences flag.data s.data

/-- The offline-mode flag with its value `true`. -/
def offlineFlag : String := "--blackduck.offline.mode=true"

/-- A URL that closes its own quotation and brings a token, a project and a
further flag of its own. -/
def quoteBreakingURL : String :=
  "a\" --blackduck.api.token=\"other-token\" --detect.project.name=\"other-project\" --detect.tools=\"NONE"

/-! ## The test helper, and what a run leaves behind -/

/-- The helper `containsString` of plugin_test.go (lines 186-188): both
strings non-empty and different from each other. -/
def containsString (s substr : String) : Bool :=
  s != "" && substr != "" && s != substr

/-- The texts that a run writes to standard output with `fmt.Printf`, in
order. -/
def echoed (h : Host) (p : Plugin) : List String :=
  (runBlackDuckScan h p).1.filterMap fun e =>
    match e with
    | .printed text => some text
    | _ => none

/-- The child processes that a run starts, in order: the path and the argument
vector of each. -/
def spawnedChildren (h : Host) (p : Plugin) : List (String × List String) :=
  (runBlackDuckScan h p).1.filterMap fun e =>
    match e with
    | .spawned path argv => some (path, argv)
    | _ => none

/-- A host that is not Windows on which `bash` is not found. -/
def noBashHost : Host :=
  { GOOS := "linux",
    LookPath := fun name =>
      .error ("exec: \"" ++ name ++ "\": executable file not found in $PATH"),
    child := fun _ _ => .exited 0 }

/-- A configuration whose URL holds a double quote and carries a token flag. -/
def collidingPluginA : Plugin :=
  { basicPlugin with
    BlackduckURL := "a\" --blackduck.api.token=\"b", BlackduckToken := "c" }

/-- A configuration whose token holds a double quote and carries a token
flag; its URL and token both differ from those of `collidingPluginA`. -/
def collidingPluginB : Plugin :=
  { basicPlugin with
    BlackduckURL := "a", BlackduckToken := "b\" --blackduck.api.token=\"c" }

/-- The first word of `cmd.String()` for a program name: the resolved path
when the look-up worked, the name itself when it did not. -/
def shownProgram (h : Host) (name : String) : String :=
  match h.LookPath name with
  | .ok lp => lp
  | .error _ => name

/-- A host that is not Windows on which `bash` is found and the child exits
with status 1. -/
def failingHost : Host := { linuxHost with child := fun _ _ => .exited 1 }

/-- The part of the echo line that stands before the token: the words
`Running command:`, the shell as `cmd.String()` shows it, its option, the
scanner invocation, the URL flag, and the token flag up to its opening quote. -/
def echoBeforeToken (h : Host) (bdURL : String) : String :=
  if h.GOOS = "windows" then
    "Running command: " ++ shownProgram h "powershell.exe" ++
      " -Command java -jar 'C:\\opt\\synopsys-detect-9.7.0.jar' --blackduck.url='" ++ bdURL ++
      "' --blackduck.api.token='"
  else
    "Running command: " ++ shownProgram h "bash" ++
      " -c java -jar /opt/synopsys-detect-9.7.0.jar --blackduck.url=\"" ++ bdURL ++
      "\" --blackduck.api.token=\""

/-- The part of the echo line that stands after the token: its closing quote,
the project flag, the suffix of optional flags and the line end. -/
def echoAfterToken (h : Host) (bdProject suffix : String) : String :=
  if h.GOOS = "windows" then
    "' --detect.project.name='" ++ bdProject ++ "'" ++ suffix ++ "\n"
  else
    "\" --detect.project.name=\"" ++ bdProject ++ "\"" ++ suffix ++ "\n"

/-! ## How bash reads the words of a command string

The command string is handed to `bash -c`, so whether a value is quoted the
way the shell needs is a question about how bash cuts the string into words.
`readWords` follows the rules of the bash manual for a non-interactive shell
(sections Quoting and Shell Expansions): blanks and the control operators
`|`, `&`, `;` and newline end a word; a backslash outside quotes protects the
next character; single quotes protect everything up to the next single quote;
inside double quotes everything is literal except the backtick, a `$` that
starts an expansion, and a backslash before `$`, a backtick, `"`, `\` or a
newline.  Where the shell would expand, match a pattern, redirect or start a
comment, the reader stops with `special` and does not say what the word
becomes. -/

/-- What reading one word gives: the word (after quote removal) and the text
that follows it; no word (end of text or a control operator); `special` when
the shell would expand, match, redirect or comment, or meets a NUL, which no
argument can hold; `unterminated` when a quotation is never closed. -/
inductive WordRead where
  | word (value rest : List Char)
  | noWord
  | special
  | unterminated
  deriving DecidableEq, Repr

/-- Puts characters that were read before in front of the word of a result. -/
def WordRead.prepend (pre : List Char) : WordRead → WordRead
  | .word value rest => .word (pre ++ value) rest
  | .noWord => .noWord
  | .special => .special
  | .unterminated => .unterminated

/-- Where the reader stands inside a word: outside quotes, outside quotes
right after a backslash, inside double quotes, inside double quotes right
after a backslash that protects the next character, inside single quotes. -/
inductive QuoteMode where
  | bare
  | bareEscaped
  | double
  | doubleEscaped
  | single
  deriving DecidableEq, Repr

/-- The characters before which a backslash keeps its meaning inside double
quotes: `$`, backtick, `"`, `\` and newline. -/
def escapedInDoubleQuotes (c : Char) : Bool :=
  c == '$' || c == Char.ofNat 96 || c == '"' || c == '\\' || c == '\n'

/-- The characters that make a `$` before them the start of an expansion: a
letter, a digit or `_` (a variable or positional parameter), `(`, the opening
brace and `[` (command, parameter and arithmetic expansion), and the special
parameters `*`, `@`, `#`, `?`, `-`, `$`, `!`. -/
def startsExpansion (c : Char) : Bool :=
  c.isAlpha || c.isDigit || c == '_' || c == '(' || c == Char.ofNat 123 || c == '[' ||
    c == '*' || c == '@' || c == '#' || c == '?' || c == '-' || c == '$' || c == '!'

/-- The characters that end a word outside quotes: space, tab, newline and the
control operators `|`, `&`, `;`. -/
def endsBareWord (c : Char) : Bool :=
  c == ' ' || c == '\t' || c == '\n' || c == '|' || c == '&' || c == ';'

/-- The characters at which the reader stops outside quotes because the shell
does more than copy them: redirections and parentheses, the backtick, the
pattern characters `*`, `?`, `[`, the opening brace, `~`, and NUL. -/
def specialInBareWord (c : Char) : Bool :=
  c == '<' || c == '>' || c == '(' || c == ')' || c == Char.ofNat 96 || c == '*' ||
    c == '?' || c == '[' || c == Char.ofNat 123 || c == '~' || c == Char.ofNat 0

/-- Reads the rest of one word, character by character. -/
def lexWord : List Char → QuoteMode → WordRead
  | [], mode =>
    match mode with
    | .bare => .word [] []
    | .bareEscaped => .special
    | .double => .unterminated
    | .doubleEscaped => .unterminated
    | .single => .unterminated
  | c :: rest, mode =>
    match mode with
    | .bare =>
      if endsBareWord c then .word [] (c :: rest)
      else if specialInBareWord c then .special
      else if c == '"' then lexWord rest .double
      else if c == Char.ofNat 39 then lexWord rest .single
      else if c == '\\' then lexWord rest .bareEscaped
      else if c == '$' then
        match rest.head? with
        | none => .word ['$'] []
        | some d =>
          if startsExpansion d || d == '"' || d == Char.ofNat 39 then .special
          else (lexWord rest .bare).prepend ['$']
      else (lexWord rest .bare).prepend [c]
    | .bareEscaped =>
      if c == '\n' then lexWord rest .bare
      else if c == Char.ofNat 0 then .special
      else (lexWord rest .bare).prepend [c]
    | .double =>
      if c == '"' then lexWord rest .bare
      else if c == Char.ofNat 96 || c == Char.ofNat 0 then .special
      else if c == '\\' then
        match rest.head? with
        | none => .unterminated
        | some d =>
          if escapedInDoubleQuotes d then lexWord rest .doubleEscaped
          else (lexWord rest .double).prepend ['\\']
      else if c == '$' then
        match rest.head? with
        | none => .unterminated
        | some d =>
          if startsExpansion d then .special
          else (lexWord rest .double).prepend ['$']
      else (lexWord rest .double).prepend [c]
    | .doubleEscaped =>
      if c == '\n' then lexWord rest .double
      else (lexWord rest .double).prepend [c]
    | .single =>
      if c == Char.ofNat 39 then lexWord rest .bare
      else if c == Char.ofNat 0 then .special
      else (lexWord rest .single).prepend [c]

/-- Reads the next word of a command: blanks are skipped; at the end of the
text or at a control operator there is no word; a `#` where a word would start
begins a comment. -/
def nextWord : List Char → WordRead
  | [] => .noWord
  | c :: rest =>
    if c == ' ' || c == '\t' then nextWord rest
    else if endsBareWord c then .noWord
    else if c == '#' then .special
    else lexWord (c :: rest) .bare

/-- What reading several words gives: the words and the text after the last
of them, or the words read before the reader had to stop and the result at
which it stopped. -/
inductive WordsRead where
  | read (words : List String) (rest : String)
  | stopped (words : List String) (why : WordRead)
  deriving DecidableEq, Repr

/-- Puts a word that was read before in front of the words of a result. -/
def WordsRead.push (w : String) : WordsRead → WordsRead
  | .read words rest => .read (w :: words) rest
  | .stopped words why => .stopped (w :: words) why

/-- Reads the first `n` words of a command string, all of the same simple
command: the words and the text that follows the last of them.  When fewer
than `n` words can be read the result holds the words read so far and the
reason. -/
def readWords : Nat → List Char → WordsRead
  | 0, s => .read [] ⟨s⟩
  | n + 1, s =>
    match nextWord s with
    | .word value rest => (readWords n rest).push ⟨value⟩
    | .noWord => .stopped [] .noWord
    | .special => .stopped [] .special
    | .unterminated => .stopped [] .unterminated

/-- Whether bash reads a text that stands between double quotes as itself:
it holds no double quote, no backtick and no NUL, no backslash that stands
last or before `$`, a backtick, `"`, `\` or a newline, and no `$` before a
character that starts an expansion. -/
def plainInDoubleQuotes : List Char → Bool
  | [] => true
  | c :: rest =>
    if c == '"' || c == Char.ofNat 96 || c == Char.ofNat 0 then false
    else if c == '\\' then
      match rest.head? with
      | none => false
      | some d => !escapedInDoubleQuotes d && plainInDoubleQuotes rest
    else if c == '$' then
      match rest.head? with
      | none => plainInDoubleQuotes rest
      | some d => !startsExpansion d && plainInDoubleQuotes rest
    else plainInDoubleQuotes rest

/-- Whether bash copies a character that stands outside quotes inside a word:
it ends no word, is not special there, and is no quote, backslash or `$`. -/
def plainInBareWord (c : Char) : Bool :=
  !endsBareWord c && !specialInBareWord c && !(c == '"') && !(c == Char.ofNat 39)
    && !(c == '\\') && !(c == '$')

/-- A URL that ends in a backslash, which protects the closing quote that the
command builder puts after it. -/
def backslashURL : String := "a\\"

/-- A URL that is a command substitution. -/
def substitutionURL : String := "$(id)"

/-! ## Basic facts about the pieces -/

theorem missingRequired_of_valid (p : Plugin) (hU : p.BlackduckURL ≠ "")
    (hT : p.BlackduckToken ≠ "") (hP : p.BlackduckProject ≠ "") :
    missingRequired p = false := by
  simp [missingRequired, hU, hT, hP]

theorem missingRequired_of_empty (p : Plugin)
    (hmiss : p.BlackduckURL = "" ∨ p.BlackduckToken = "" ∨ p.BlackduckProject = "") :
    missingRequired p = true := by
  rcases hmiss with h | h | h <;> simp [missingRequired, h]

theorem Command_Args (h : Host) (name : String) (arg : List String) :
    (Command h name arg).Args = name :: arg := by
  unfold Command
  cases h.LookPath name <;> rfl

theorem buildCmd_posix (h : Host) (p : Plugin) (hg : h.GOOS ≠ "windows") :
    buildCmd h p = .ok (Command h "bash" ["-c",
      posixCommand p.BlackduckURL p.BlackduckToken p.BlackduckProject ++ additionalArgs p]) := by
  simp [buildCmd, initialCommand, hg]

theorem buildCmd_windows (h : Host) (p : Plugin) (hg : h.GOOS = "windows") :
    buildCmd h p = .ok (Command h "powershell.exe" ["-Command",
      windowsScript p.BlackduckURL p.BlackduckToken p.BlackduckProject ++ additionalArgs p]) := by
  simp [buildCmd, initialArgs, hg]

theorem Itoa_of_pos (n : Int) (hn : 0 < n) : Itoa n = Nat.repr n.toNat := by
  have h1 : ¬ n < 0 := by omega
  have h2 : n.natAbs = n.toNat := by omega
  simp [Itoa, h1, h2]

theorem appendScanMode_eq (a mode : String) :
    appendScanMode a mode = a ++
      (if mode = "RAPID" ∨ mode = "STATELESS" ∨ mode = "INTELLIGENT" then
        " --detect.blackduck.scan.mode=" ++ mode else "") := by
  by_cases h : mode = "RAPID" ∨ mode = "STATELESS" ∨ mode = "INTELLIGENT"
  · rw [if_pos h]
    rcases h with h | h | h <;> (subst h; simp [appendScanMode])
  · rw [if_neg h]
    have h1 : mode ≠ "RAPID" := fun e => h (Or.inl e)
    have h2 : mode ≠ "STATELESS" := fun e => h (Or.inr (Or.inl e))
    have h3 : mode ≠ "INTELLIGENT" := fun e => h (Or.inr (Or.inr e))
    simp [appendScanMode, h1, h2, h3]

/-- The suffix built by the sequence of appends is the concatenation of the
pieces of `optionalFlags`. -/
theorem additionalArgs_eq_optionalFlags (p : Plugin) :
    additionalArgs p = optionalFlags p := by
  unfold additionalArgs optionalFlags
  simp only [appendScanMode_eq]
  by_cases ht : 0 < p.BlackduckTimeout
  · cases p.BlackduckOfflineMode <;> cases p.BlackduckTestConnection <;>
      cases p.BlackduckOfflineBDIO <;> cases p.BlackduckTrustCerts <;>
      by_cases he : p.BLackduckProperties = "" <;>
      simp [ht, he, FormatBool, Itoa_of_pos, String.append_assoc]
  · cases p.BlackduckOfflineMode <;> cases p.BlackduckTestConnection <;>
      cases p.BlackduckOfflineBDIO <;> cases p.BlackduckTrustCerts <;>
      by_cases he : p.BLackduckProperties = "" <;>
      simp [ht, he, FormatBool, String.append_assoc]

theorem runBlackDuckScan_of_valid (h : Host) (p : Plugin) (c : Cmd)
    (hv : missingRequired p = false) (hc : buildCmd h p = .ok c) :
    runBlackDuckScan h p =
      (scanModeWarning p ++ [Event.printed ("Running command: " ++ c.String ++ "\n")]
          ++ (c.Run h).1,
        match (c.Run h).2 with
        | some e => .returned (some (.wrapf (execErrorPrefix ++ e.Error) e))
        | none => .returned none) := by
  unfold runBlackDuckScan
  rw [hv, hc]
  rcases hr : c.Run h with ⟨started, _ | e⟩ <;> simp [hr]

theorem buildCmd_ok (h : Host) (p : Plugin) : ∃ c, buildCmd h p = .ok c := by
  by_cases hg : h.GOOS = "windows"
  · exact ⟨_, buildCmd_windows h p hg⟩
  · exact ⟨_, buildCmd_posix h p hg⟩

theorem Exec_eq_runBlackDuckScan (h : Host) (p : Plugin) (ctx : Context) :
    p.Exec h ctx = runBlackDuckScan h p := by
  unfold Plugin.Exec
  rcases runBlackDuckScan h p with ⟨events, (_ | e) | msg⟩ <;> rfl

theorem Run_eq_none_iff (h : Host) (c : Cmd) :
    (c.Run h).2 = none ↔ c.Err = none ∧ h.child c.Path c.Args = .exited 0 := by
  unfold Cmd.Run
  cases hE : c.Err with
  | some e => simp
  | none =>
    cases hc : h.child c.Path c.Args with
    | notStarted reason => simp
    | exited status => cases status <;> simp
    | signaled signal => simp

theorem Run_isCancellation (h : Host) (c : Cmd) (e : GoError)
    (hE : ∀ e0, c.Err = some e0 → e0.isCancellation = false)
    (hr : (c.Run h).2 = some e) : e.isCancellation = false := by
  unfold Cmd.Run at hr
  cases hErr : c.Err with
  | some e0 =>
    rw [hErr] at hr
    simp at hr
    subst hr
    exact hE e0 hErr
  | none =>
    rw [hErr] at hr
    cases hc : h.child c.Path c.Args with
    | notStarted reason =>
      rw [hc] at hr
      simp at hr
      subst hr
      rfl
    | exited status =>
      rw [hc] at hr
      cases status with
      | zero => simp at hr
      | succ n =>
        simp at hr
        subst hr
        rfl
    | signaled signal =>
      rw [hc] at hr
      simp at hr
      subst hr
      rfl

theorem Command_Err_isCancellation (h : Host) (name : String) (arg : List String)
    (e0 : GoError) (he : (Command h name arg).Err = some e0) :
    e0.isCancellation = false := by
  unfold Command at he
  cases hl : h.LookPath name with
  | ok lp => rw [hl] at he; simp at he
  | error msg =>
    rw [hl] at he
    simp at he
    subst he
    rfl

/-! ## Facts about reading a command string -/

theorem dropLiteral_append (lit s : List Char) : dropLiteral lit (lit ++ s) = some s := by
  induction lit with
  | nil => cases s <;> rfl
  | cons c lit ih => simp [dropLiteral, ih]

theorem untilQuote_append (v rest : List Char) (hv : '"' ∉ v) :
    untilQuote (v ++ '"' :: rest) = some (v, rest) := by
  induction v with
  | nil => simp [untilQuote]
  | cons c v ih =>
    have hc : c ≠ '"' := fun e => hv (by simp [e])
    have hv2 : '"' ∉ v := fun e => hv (List.mem_cons_of_mem _ e)
    simp [untilQuote, hc, ih hv2]

/-- Reading back a command string whose three values hold no double quote
gives the three values and the suffix that was appended. -/
theorem readMandatory_posixCommand (u t pr rest : String)
    (hu : '"' ∉ u.data) (ht : '"' ∉ t.data) (hp : '"' ∉ pr.data) :
    readMandatory (posixCommand u t pr ++ rest) = some (u, t, pr, rest) := by
  have hdata : (posixCommand u t pr ++ rest).data =
      "java -jar /opt/synopsys-detect-9.7.0.jar --blackduck.url=\"".data ++
        (u.data ++ '"' :: (" --blackduck.api.token=\"".data ++
          (t.data ++ '"' :: (" --detect.project.name=\"".data ++
            (pr.data ++ '"' :: rest.data))))) := by
    simp [posixCommand]
  unfold readMandatory
  rw [hdata]
  simp only [dropLiteral_append, untilQuote_append _ _ hu, untilQuote_append _ _ ht,
    untilQuote_append _ _ hp]

/-! ## Facts about decimal text -/

theorem digitChar_isDigit : ∀ k < 10, (Nat.digitChar k).isDigit = true := by decide

theorem toDigitsCore_isDigit (fuel : Nat) :
    ∀ (n : Nat) (ds : List Char), (∀ c ∈ ds, c.isDigit = true) →
      ∀ c ∈ Nat.toDigitsCore 10 fuel n ds, c.isDigit = true := by
  induction fuel with
  | zero => intro n ds hds c hc; exact hds c (by simpa [Nat.toDigitsCore] using hc)
  | succ fuel ih =>
    intro n ds hds c hc
    have hd : (Nat.digitChar (n % 10)).isDigit = true :=
      digitChar_isDigit _ (Nat.mod_lt _ (by decide))
    have hds2 : ∀ c ∈ Nat.digitChar (n % 10) :: ds, c.isDigit = true := by
      intro c hc
      rcases List.mem_cons.mp hc with e | e
      · rw [e]; exact hd
      · exact hds c e
    unfold Nat.toDigitsCore at hc
    by_cases hz : n / 10 = 0
    · simp only [hz, if_true] at hc
      exact hds2 c hc
    · simp only [hz, if_false] at hc
      exact ih _ _ hds2 c hc

/-- Every character of the decimal text of a natural number is a digit. -/
theorem repr_isDigit (n : Nat) : ∀ c ∈ (Nat.repr n).data, c.isDigit = true := by
  intro c hc
  exact toDigitsCore_isDigit _ n [] (by simp) c (by simpa [Nat.repr, Nat.toDigits] using hc)

/-! ## Facts about counting occurrences -/

theorem isPrefixOf_append_sep (pat : List Char) (sep : Char) (hsep : sep ∉ pat) :
    ∀ (x rest : List Char), pat.isPrefixOf (x ++ sep :: rest) = pat.isPrefixOf x := by
  induction pat with
  | nil => intro x rest; simp
  | cons c pat ih =>
    intro x rest
    have hc : c ≠ sep := fun e => hsep (by simp [e])
    have hpat : sep ∉ pat := fun e => hsep (List.mem_cons_of_mem _ e)
    cases x with
    | nil => simp [List.isPrefixOf, hc]
    | cons y x => simp [List.isPrefixOf, ih hpat]

/-- No occurrence of a text runs across a character that the text does not
hold: the occurrences on both sides of it add up. -/
theorem occurrences_append_sep (pat : List Char) (sep : Char) (hne : pat ≠ [])
    (hsep : sep ∉ pat) (x rest : List Char) :
    occurrences pat (x ++ sep :: rest) = occurrences pat x + occurrences pat rest := by
  have hempty : pat.isEmpty = false := by cases pat <;> simp_all
  induction x with
  | nil =>
    have h0 := isPrefixOf_append_sep pat sep hsep [] rest
    have h1 : pat.isPrefixOf [] = false := by cases pat <;> simp_all [List.isPrefixOf]
    simp only [List.nil_append] at h0
    simp [occurrences, h0, h1, hempty]
  | cons y x ih =>
    have h0 := isPrefixOf_append_sep pat sep hsep (y :: x) rest
    simp only [List.cons_append] at h0
    show (if pat.isPrefixOf (y :: (x ++ sep :: rest)) then 1 else 0)
        + occurrences pat (x ++ sep :: rest)
      = ((if pat.isPrefixOf (y :: x) then 1 else 0) + occurrences pat x)
        + occurrences pat rest
    rw [h0, ih]
    omega

/-- A text whose first character does not occur in `s` does not occur in `s`. -/
theorem occurrences_eq_zero_of_head (c : Char) (pat s : List Char) (hc : c ∉ s) :
    occurrences (c :: pat) s = 0 := by
  induction s with
  | nil => simp [occurrences]
  | cons d s ih =>
    have hd : c ≠ d := fun e => hc (by simp [e])
    have hs : c ∉ s := fun e => hc (List.mem_cons_of_mem _ e)
    simp [occurrences, List.isPrefixOf, hd, ih hs]

set_option maxRecDepth 20000

theorem offlineFlag_data_ne_nil : offlineFlag.data ≠ [] := by decide

theorem occurrences_offlineFlag_nil : occurrences offlineFlag.data [] = 0 := by decide

/-- A piece that is empty or starts with a space adds its own occurrences of
the offline flag to those of the text before it. -/
theorem occurrences_offlineFlag_piece (x g : List Char)
    (hg : g = [] ∨ ∃ b, g = ' ' :: b) :
    occurrences offlineFlag.data (x ++ g) =
      occurrences offlineFlag.data x + occurrences offlineFlag.data g := by
  rcases hg with hg | ⟨b, hg⟩
  · subst hg
    simp [occurrences_offlineFlag_nil]
  · subst hg
    have h1 := occurrences_append_sep offlineFlag.data ' ' offlineFlag_data_ne_nil
      (by decide) x b
    have h2 := occurrences_append_sep offlineFlag.data ' ' offlineFlag_data_ne_nil
      (by decide) [] b
    simp only [List.nil_append, occurrences_offlineFlag_nil, Nat.zero_add] at h2
    rw [h1, h2]

theorem isPrefixOf_append_of_mismatch (pat : List Char) :
    ∀ (x d : List Char), pat.isPrefixOf x = false → x.isPrefixOf pat = false →
      pat.isPrefixOf (x ++ d) = false := by
  induction pat with
  | nil => intro x d h1 _; simp at h1
  | cons a pat ih =>
    intro x d h1 h2
    cases x with
    | nil => simp at h2
    | cons b x =>
      by_cases hab : a = b
      · subst hab
        simp only [List.isPrefixOf, beq_self_eq_true, Bool.true_and, List.cons_append] at h1 h2 ⊢
        exact ih x d h1 h2
      · simp [List.isPrefixOf, hab]

/-- A literal none of whose non-empty endings matches the text or is a
beginning of the text holds no occurrence, whatever follows it. -/
theorem occurrences_literal_append (pat : List Char) :
    ∀ (lit d : List Char),
      (∀ x ∈ lit.tails, x ≠ [] → pat.isPrefixOf x = false ∧ x.isPrefixOf pat = false) →
      occurrences pat (lit ++ d) = occurrences pat d := by
  intro lit
  induction lit with
  | nil => intro d _; rfl
  | cons c lit ih =>
    intro d hlit
    have hhead := hlit (c :: lit) (by simp) (by simp)
    have htail : ∀ x ∈ lit.tails, x ≠ [] →
        pat.isPrefixOf x = false ∧ x.isPrefixOf pat = false := by
      intro x hx hne
      exact hlit x (by simp [List.tails, hx]) hne
    have h0 := isPrefixOf_append_of_mismatch pat (c :: lit) d hhead.1 hhead.2
    show (if pat.isPrefixOf (c :: lit ++ d) then 1 else 0) + occurrences pat (lit ++ d)
      = occurrences pat d
    rw [h0, ih d htail]
    simp

theorem occurrences_offlineFlag_timeout (n : Nat) :
    occurrences offlineFlag.data (" --detect.timeout=" ++ Nat.repr n).data = 0 := by
  have hdash : '-' ∉ (Nat.repr n).data := by
    intro hmem
    have := repr_isDigit n '-' hmem
    revert this
    decide
  have hz : occurrences offlineFlag.data (Nat.repr n).data = 0 :=
    occurrences_eq_zero_of_head '-' "-blackduck.offline.mode=true".data
      (Nat.repr n).data hdash
  rw [String.data_append,
    occurrences_literal_append offlineFlag.data " --detect.timeout=".data _ (by decide), hz]

theorem occurrences_offlineFlag_scanMode (mode : String)
    (hm : mode = "RAPID" ∨ mode = "STATELESS" ∨ mode = "INTELLIGENT") :
    occurrences offlineFlag.data (" --detect.blackduck.scan.mode=" ++ mode).data = 0 := by
  rcases hm with hm | hm | hm <;> (subst hm; decide)

theorem occurrences_offlineFlag_space (b : List Char) :
    occurrences offlineFlag.data (' ' :: b) = occurrences offlineFlag.data b := by
  have h2 := occurrences_append_sep offlineFlag.data ' ' offlineFlag_data_ne_nil
    (by decide) [] b
  simpa [occurrences_offlineFlag_nil] using h2

theorem spaceLed_ite (c : Prop) [Decidable c] (s : String)
    (hs : s.data = [] ∨ ∃ b, s.data = ' ' :: b) :
    (if c then s else "").data = [] ∨ ∃ b, (if c then s else "").data = ' ' :: b := by
  split
  · exact hs
  · exact Or.inl rfl

/-- The offline flag occurs in the suffix of optional flags once when offline
mode is set and not at all otherwise, apart from its occurrences inside the
extra properties. -/
theorem occurrences_offlineFlag_additionalArgs (p : Plugin) :
    occurrences offlineFlag.data (additionalArgs p).data =
      (if p.BlackduckOfflineMode then 1 else 0)
        + occurrences offlineFlag.data p.BLackduckProperties.data := by
  have h2 := spaceLed_ite (p.BlackduckTestConnection = true) " --detect.test.connection=true"
    (Or.inr ⟨_, rfl⟩)
  have h3 := spaceLed_ite (p.BlackduckOfflineBDIO = true)
    " --blackduck.offline.mode.force.bdio=true" (Or.inr ⟨_, rfl⟩)
  have h4 := spaceLed_ite (p.BlackduckTrustCerts = true) " --blackduck.trust.cert=true"
    (Or.inr ⟨_, rfl⟩)
  have h5 := spaceLed_ite (0 < p.BlackduckTimeout)
    (" --detect.timeout=" ++ Nat.repr p.BlackduckTimeout.toNat) (Or.inr ⟨_, rfl⟩)
  have h6 := spaceLed_ite (p.BlackduckScanMode = "RAPID" ∨ p.BlackduckScanMode = "STATELESS"
      ∨ p.BlackduckScanMode = "INTELLIGENT")
    (" --detect.blackduck.scan.mode=" ++ p.BlackduckScanMode) (Or.inr ⟨_, rfl⟩)
  have h7 : (if p.BLackduckProperties = "" then "" else " " ++ p.BLackduckProperties).data = []
      ∨ ∃ b, (if p.BLackduckProperties = "" then "" else " " ++ p.BLackduckProperties).data
        = ' ' :: b := by
    split
    · exact Or.inl rfl
    · exact Or.inr ⟨_, rfl⟩
  have v1 : occurrences offlineFlag.data
      (if p.BlackduckOfflineMode = true then " --blackduck.offline.mode=true" else "").data
      = if p.BlackduckOfflineMode then 1 else 0 := by
    cases p.BlackduckOfflineMode <;> decide
  have v2 : occurrences offlineFlag.data
      (if p.BlackduckTestConnection = true then " --detect.test.connection=true" else "").data
      = 0 := by
    cases p.BlackduckTestConnection <;> decide
  have v3 : occurrences offlineFlag.data
      (if p.BlackduckOfflineBDIO = true then " --blackduck.offline.mode.force.bdio=true"
        else "").data = 0 := by
    cases p.BlackduckOfflineBDIO <;> decide
  have v4 : occurrences offlineFlag.data
      (if p.BlackduckTrustCerts = true then " --blackduck.trust.cert=true" else "").data
      = 0 := by
    cases p.BlackduckTrustCerts <;> decide
  have v5 : occurrences offlineFlag.data
      (if 0 < p.BlackduckTimeout then
        " --detect.timeout=" ++ Nat.repr p.BlackduckTimeout.toNat else "").data = 0 := by
    split
    · exact occurrences_offlineFlag_timeout _
    · exact occurrences_offlineFlag_nil
  have v6 : occurrences offlineFlag.data
      (if p.BlackduckScanMode = "RAPID" ∨ p.BlackduckScanMode = "STATELESS"
          ∨ p.BlackduckScanMode = "INTELLIGENT" then
        " --detect.blackduck.scan.mode=" ++ p.BlackduckScanMode else "").data = 0 := by
    split
    · rename_i hm
      exact occurrences_offlineFlag_scanMode _ hm
    · exact occurrences_offlineFlag_nil
  have v7 : occurrences offlineFlag.data
      (if p.BLackduckProperties = "" then "" else " " ++ p.BLackduckProperties).data
      = occurrences offlineFlag.data p.BLackduckProperties.data := by
    split
    · rename_i he
      rw [he]
    · exact occurrences_offlineFlag_space _
  rw [additionalArgs_eq_optionalFlags]
  unfold optionalFlags
  simp only [String.data_append]
  rw [occurrences_offlineFlag_piece _ _ h7, occurrences_offlineFlag_piece _ _ h6,
    occurrences_offlineFlag_piece _ _ h5, occurrences_offlineFlag_piece _ _ h4,
    occurrences_offlineFlag_piece _ _ h3, occurrences_offlineFlag_piece _ _ h2,
    v1, v2, v3, v4, v5, v6, v7]
  omega

/-- The occurrences of a text in a command of the shape that both platforms
build (three literals, each followed by a value between two quote characters,
then a suffix), when the text holds no quote character and does not occur in
the literals: they are the occurrences in the three values and in the suffix. -/
theorem occurrences_quoted_command (pat : List Char) (q : Char) (hne : pat ≠ [])
    (hq : q ∉ pat) (l1 l2 l3 u t pr rest : List Char)
    (h1 : occurrences pat l1 = 0) (h2 : occurrences pat l2 = 0)
    (h3 : occurrences pat l3 = 0) :
    occurrences pat
        (l1 ++ q :: (u ++ q :: (l2 ++ q :: (t ++ q :: (l3 ++ q :: (pr ++ q :: rest)))))) =
      occurrences pat u + occurrences pat t + occurrences pat pr + occurrences pat rest := by
  simp only [occurrences_append_sep pat q hne hq, h1, h2, h3]
  omega

/-- The offline flag occurs in the command string of either platform as often
as in the three values and the extra properties, plus once when offline mode
is set. -/
theorem countOccurrences_offlineFlag_shellCommand (h : Host) (p : Plugin) :
    ∃ cmd, shellCommand h p = some cmd ∧
      countOccurrences offlineFlag cmd =
        (if p.BlackduckOfflineMode then 1 else 0)
          + countOccurrences offlineFlag p.BlackduckURL
          + countOccurrences offlineFlag p.BlackduckToken
          + countOccurrences offlineFlag p.BlackduckProject
          + countOccurrences offlineFlag p.BLackduckProperties := by
  by_cases hg : h.GOOS = "windows"
  · refine ⟨windowsScript p.BlackduckURL p.BlackduckToken p.BlackduckProject
      ++ additionalArgs p, ?_, ?_⟩
    · unfold shellCommand builtArgs
      rw [buildCmd_windows h p hg]
      simp [Command_Args]
    · have hdata : (windowsScript p.BlackduckURL p.BlackduckToken p.BlackduckProject
          ++ additionalArgs p).data =
          "java -jar 'C:\\opt\\synopsys-detect-9.7.0.jar' --blackduck.url=".data ++
            Char.ofNat 39 :: (p.BlackduckURL.data ++
            Char.ofNat 39 :: (" --blackduck.api.token=".data ++
            Char.ofNat 39 :: (p.BlackduckToken.data ++
            Char.ofNat 39 :: (" --detect.project.name=".data ++
            Char.ofNat 39 :: (p.BlackduckProject.data ++
            Char.ofNat 39 :: (additionalArgs p).data))))) := by
        simp [windowsScript]
      unfold countOccurrences
      rw [hdata, occurrences_quoted_command offlineFlag.data (Char.ofNat 39)
        offlineFlag_data_ne_nil (by decide) _ _ _ _ _ _ _ (by decide) (by decide) (by decide),
        occurrences_offlineFlag_additionalArgs]
      omega
  · refine ⟨posixCommand p.BlackduckURL p.BlackduckToken p.BlackduckProject
      ++ additionalArgs p, ?_, ?_⟩
    · unfold shellCommand builtArgs
      rw [buildCmd_posix h p hg]
      simp [Command_Args]
    · have hdata : (posixCommand p.BlackduckURL p.BlackduckToken p.BlackduckProject
          ++ additionalArgs p).data =
          "java -jar /opt/synopsys-detect-9.7.0.jar --blackduck.url=".data ++
            '"' :: (p.BlackduckURL.data ++
            '"' :: (" --blackduck.api.token=".data ++
            '"' :: (p.BlackduckToken.data ++
            '"' :: (" --detect.project.name=".data ++
            '"' :: (p.BlackduckProject.data ++
            '"' :: (additionalArgs p).data))))) := by
        simp [posixCommand]
      unfold countOccurrences
      rw [hdata, occurrences_quoted_command offlineFlag.data '"'
        offlineFlag_data_ne_nil (by decide) _ _ _ _ _ _ _ (by decide) (by decide) (by decide),
        occurrences_offlineFlag_additionalArgs]
      omega

/-! ## Facts about the command string -/

/-- The command string on either platform: the quoted scanner invocation of
that platform followed by the suffix of optional flags. -/
theorem shellCommand_eq (h : Host) (p : Plugin) :
    shellCommand h p = some
      ((if h.GOOS = "windows" then
          windowsScript p.BlackduckURL p.BlackduckToken p.BlackduckProject
        else posixCommand p.BlackduckURL p.BlackduckToken p.BlackduckProject)
        ++ optionalFlags p) := by
  unfold shellCommand builtArgs
  by_cases hg : h.GOOS = "windows"
  · rw [buildCmd_windows h p hg, additionalArgs_eq_optionalFlags]
    simp [Command_Args, hg]
  · rw [buildCmd_posix h p hg, additionalArgs_eq_optionalFlags]
    simp [Command_Args, hg]

theorem buildCmd_congr (h : Host) (p q : Plugin)
    (hU : p.BlackduckURL = q.BlackduckURL) (hT : p.BlackduckToken = q.BlackduckToken)
    (hP : p.BlackduckProject = q.BlackduckProject)
    (hadd : additionalArgs p = additionalArgs q) : buildCmd h p = buildCmd h q := by
  by_cases hg : h.GOOS = "windows"
  · rw [buildCmd_windows h p hg, buildCmd_windows h q hg, hU, hT, hP, hadd]
  · rw [buildCmd_posix h p hg, buildCmd_posix h q hg, hU, hT, hP, hadd]

theorem getLast?_append_ne_space (a b : List Char) (ha : a.getLast? ≠ some ' ')
    (hb : b.getLast? ≠ some ' ') : (a ++ b).getLast? ≠ some ' ' := by
  rw [List.getLast?_append]
  cases hlast : b.getLast? with
  | none => simpa using ha
  | some c => simpa [hlast] using hb

theorem getLast?_ite_ne_space (c : Prop) [Decidable c] (s : String)
    (hs : s.data.getLast? ≠ some ' ') :
    (if c then s else "").data.getLast? ≠ some ' ' := by
  split
  · exact hs
  · decide

theorem getLast?_repr_ne_space (n : Nat) : (Nat.repr n).data.getLast? ≠ some ' ' := by
  intro hlast
  obtain ⟨ys, hys⟩ := List.getLast?_eq_some_iff.mp hlast
  have hmem : ' ' ∈ (Nat.repr n).data := by rw [hys]; simp
  have := repr_isDigit n ' ' hmem
  revert this
  decide

/-- With no extra properties the command string does not end in a space: it
ends in the closing quote of the project or in the last optional flag. -/
theorem shellCommand_no_trailing_space (h : Host) (p : Plugin)
    (he : p.BLackduckProperties = "") :
    ∃ cmd, shellCommand h p = some cmd ∧ cmd.data.getLast? ≠ some ' ' := by
  refine ⟨_, shellCommand_eq h p, ?_⟩
  have hbase : (if h.GOOS = "windows" then
        windowsScript p.BlackduckURL p.BlackduckToken p.BlackduckProject
      else posixCommand p.BlackduckURL p.BlackduckToken p.BlackduckProject).data.getLast?
      ≠ some ' ' := by
    split
    · have hw : (windowsScript p.BlackduckURL p.BlackduckToken p.BlackduckProject).data
          = ("java -jar 'C:\\opt\\synopsys-detect-9.7.0.jar' --blackduck.url='" ++
              p.BlackduckURL ++ "' --blackduck.api.token='" ++ p.BlackduckToken ++
              "' --detect.project.name='" ++ p.BlackduckProject).data ++ [Char.ofNat 39] := rfl
      rw [hw, List.getLast?_concat]
      decide
    · have hx : (posixCommand p.BlackduckURL p.BlackduckToken p.BlackduckProject).data
          = ("java -jar /opt/synopsys-detect-9.7.0.jar --blackduck.url=\"" ++
              p.BlackduckURL ++ "\" --blackduck.api.token=\"" ++ p.BlackduckToken ++
              "\" --detect.project.name=\"" ++ p.BlackduckProject).data ++ ['"'] := rfl
      rw [hx, List.getLast?_concat]
      decide
  have h5 : (" --detect.timeout=" ++ Nat.repr p.BlackduckTimeout.toNat).data.getLast?
      ≠ some ' ' := by
    rw [String.data_append]
    exact getLast?_append_ne_space _ _ (by decide) (getLast?_repr_ne_space _)
  have h6 : (if p.BlackduckScanMode = "RAPID" ∨ p.BlackduckScanMode = "STATELESS"
        ∨ p.BlackduckScanMode = "INTELLIGENT" then
      " --detect.blackduck.scan.mode=" ++ p.BlackduckScanMode else "").data.getLast?
      ≠ some ' ' := by
    split
    · rename_i hm
      rcases hm with hm | hm | hm <;> (rw [hm]; decide)
    · decide
  unfold optionalFlags
  rw [he]
  simp only [String.data_append]
  refine getLast?_append_ne_space _ _ hbase ?_
  refine getLast?_append_ne_space _ _ ?_ (by decide)
  refine getLast?_append_ne_space _ _ ?_ h6
  refine getLast?_append_ne_space _ _ ?_ (getLast?_ite_ne_space _ _ h5)
  refine getLast?_append_ne_space _ _ ?_ (getLast?_ite_ne_space _ _ (by decide))
  refine getLast?_append_ne_space _ _ ?_ (getLast?_ite_ne_space _ _ (by decide))
  exact getLast?_append_ne_space _ _ (getLast?_ite_ne_space _ _ (by decide))
    (getLast?_ite_ne_space _ _ (by decide))

/-- The argument vector on either platform: the shell, its option, and the
command string as one element. -/
theorem builtArgs_eq (h : Host) (p : Plugin) :
    builtArgs h p = some
      (if h.GOOS = "windows" then
        ["powershell.exe", "-Command",
          windowsScript p.BlackduckURL p.BlackduckToken p.BlackduckProject ++ additionalArgs p]
      else
        ["bash", "-c",
          posixCommand p.BlackduckURL p.BlackduckToken p.BlackduckProject ++ additionalArgs p]) := by
  unfold builtArgs
  by_cases hg : h.GOOS = "windows"
  · rw [buildCmd_windows h p hg]
    simp [Command_Args, hg]
  · rw [buildCmd_posix h p hg]
    simp [Command_Args, hg]

theorem runBlackDuckScan_no_panic (h : Host) (p : Plugin) (msg : String) :
    (runBlackDuckScan h p).2 ≠ .panicked msg := by
  cases hm : missingRequired p with
  | true => simp [runBlackDuckScan, hm]
  | false =>
    obtain ⟨c, hc⟩ := buildCmd_ok h p
    rw [runBlackDuckScan_of_valid h p c hm hc]
    cases (c.Run h).2 <;> simp

/-! ## Facts about the events of a run -/

theorem scanModeWarning_logged (p : Plugin) :
    ∀ e ∈ scanModeWarning p, ∃ msg, e = Event.logged msg := by
  intro e he
  unfold scanModeWarning at he
  split at he
  · split at he
    · simp at he
    · exact ⟨_, by simpa using he⟩
  · simp at he

theorem Run_events (h : Host) (c : Cmd) :
    (c.Run h).1 = [] ∨ (c.Run h).1 = [Event.spawned c.Path c.Args] := by
  unfold Cmd.Run
  cases c.Err with
  | some e => exact Or.inl rfl
  | none =>
    cases h.child c.Path c.Args with
    | notStarted reason => exact Or.inl rfl
    | exited status => cases status <;> exact Or.inr rfl
    | signaled signal => exact Or.inr rfl

theorem Run_events_of_started (h : Host) (c : Cmd) (hE : c.Err = none)
    (hs : ∀ reason, h.child c.Path c.Args ≠ .notStarted reason) :
    (c.Run h).1 = [Event.spawned c.Path c.Args] := by
  unfold Cmd.Run
  rw [hE]
  cases hc : h.child c.Path c.Args with
  | notStarted reason => exact absurd hc (hs reason)
  | exited status => cases status <;> rfl
  | signaled signal => rfl

theorem Run_events_of_not_started (h : Host) (c : Cmd)
    (hn : c.Err ≠ none ∨ ∃ reason, h.child c.Path c.Args = .notStarted reason) :
    (c.Run h).1 = [] := by
  unfold Cmd.Run
  cases hE : c.Err with
  | some e => rfl
  | none =>
    rcases hn with hn | ⟨reason, hn⟩
    · exact absurd hE hn
    · rw [hn]

theorem filterMap_printed_scanModeWarning (p : Plugin) :
    (scanModeWarning p).filterMap (fun e =>
      match e with
      | .printed text => some text
      | _ => none) = [] := by
  unfold scanModeWarning
  split
  · split <;> rfl
  · rfl

theorem filterMap_spawned_scanModeWarning (p : Plugin) :
    (scanModeWarning p).filterMap (fun e =>
      match e with
      | .spawned path argv => some (path, argv)
      | _ => none) = [] := by
  unfold scanModeWarning
  split
  · split <;> rfl
  · rfl

/-- The standard output of a valid run is the one echo line. -/
theorem echoed_of_valid (h : Host) (p : Plugin) (c : Cmd)
    (hv : missingRequired p = false) (hc : buildCmd h p = .ok c) :
    echoed h p = ["Running command: " ++ c.String ++ "\n"] := by
  unfold echoed
  rw [runBlackDuckScan_of_valid h p c hv hc]
  simp only [List.filterMap_append, filterMap_printed_scanModeWarning, List.nil_append]
  rcases Run_events h c with hr | hr <;> rw [hr] <;> rfl

/-- The children of a valid run are those of the one call of `cmd.Run`. -/
theorem spawnedChildren_of_valid (h : Host) (p : Plugin) (c : Cmd)
    (hv : missingRequired p = false) (hc : buildCmd h p = .ok c) :
    spawnedChildren h p = (c.Run h).1.filterMap (fun e =>
      match e with
      | .spawned path argv => some (path, argv)
      | _ => none) := by
  unfold spawnedChildren
  rw [runBlackDuckScan_of_valid h p c hv hc]
  simp only [List.filterMap_append, filterMap_spawned_scanModeWarning, List.nil_append]
  rfl

theorem Command_String (h : Host) (name a b : String) :
    (Command h name [a, b]).String = shownProgram h name ++ " " ++ a ++ " " ++ b := by
  unfold Command shownProgram Cmd.String
  cases h.LookPath name <;> rfl

theorem append_mid_cancel (pre t1 t2 post : String)
    (heq : pre ++ t1 ++ post = pre ++ t2 ++ post) : t1 = t2 := by
  have hd := congrArg String.data heq
  simp only [String.data_append, List.append_assoc, List.append_cancel_left_eq,
    List.append_cancel_right_eq] at hd
  exact String.ext hd

/-- The echo line of a valid run, cut at the token. -/
theorem echo_line_cut_at_token (h : Host) (p : Plugin) :
    ∃ c, buildCmd h p = .ok c ∧
      "Running command: " ++ c.String ++ "\n" =
        echoBeforeToken h p.BlackduckURL ++ p.BlackduckToken
          ++ echoAfterToken h p.BlackduckProject (additionalArgs p) := by
  by_cases hg : h.GOOS = "windows"
  · refine ⟨_, buildCmd_windows h p hg, ?_⟩
    rw [Command_String]
    apply String.ext
    simp [echoBeforeToken, echoAfterToken, windowsScript, hg]
  · refine ⟨_, buildCmd_posix h p hg, ?_⟩
    rw [Command_String]
    apply String.ext
    simp [echoBeforeToken, echoAfterToken, posixCommand, hg]

/-! ## Facts about how bash reads a command string -/

theorem prepend_prepend (a b : List Char) (r : WordRead) :
    (r.prepend b).prepend a = r.prepend (a ++ b) := by
  cases r <;> simp [WordRead.prepend]

theorem prepend_nil (r : WordRead) : r.prepend [] = r := by
  cases r <;> simp [WordRead.prepend]

theorem head?_append_cons (v : List Char) (q : Char) (s : List Char) :
    (v ++ q :: s).head? = some (v.head?.getD q) := by
  cases v <;> simp

theorem lexWord_bare_cons (c : Char) (rest : List Char) :
    lexWord (c :: rest) .bare =
      if endsBareWord c then .word [] (c :: rest)
      else if specialInBareWord c then .special
      else if c == '"' then lexWord rest .double
      else if c == Char.ofNat 39 then lexWord rest .single
      else if c == '\\' then lexWord rest .bareEscaped
      else if c == '$' then
        match rest.head? with
        | none => .word ['$'] []
        | some d =>
          if startsExpansion d || d == '"' || d == Char.ofNat 39 then .special
          else (lexWord rest .bare).prepend ['$']
      else (lexWord rest .bare).prepend [c] := rfl

theorem lexWord_double_cons (c : Char) (rest : List Char) :
    lexWord (c :: rest) .double =
      if c == '"' then lexWord rest .bare
      else if c == Char.ofNat 96 || c == Char.ofNat 0 then .special
      else if c == '\\' then
        match rest.head? with
        | none => .unterminated
        | some d =>
          if escapedInDoubleQuotes d then lexWord rest .doubleEscaped
          else (lexWord rest .double).prepend ['\\']
      else if c == '$' then
        match rest.head? with
        | none => .unterminated
        | some d =>
          if startsExpansion d then .special
          else (lexWord rest .double).prepend ['$']
      else (lexWord rest .double).prepend [c] := rfl

/-- Plain characters outside quotes are copied. -/
theorem lexWord_bare_plain (lit s : List Char) (hlit : ∀ c ∈ lit, plainInBareWord c = true) :
    lexWord (lit ++ s) .bare = (lexWord s .bare).prepend lit := by
  induction lit with
  | nil => simp [prepend_nil]
  | cons c lit ih =>
    have hc := hlit c (by simp)
    have hl : ∀ d ∈ lit, plainInBareWord d = true := fun d hd => hlit d (by simp [hd])
    simp only [plainInBareWord, Bool.and_eq_true, Bool.not_eq_true'] at hc
    obtain ⟨⟨⟨⟨⟨h1, h2⟩, h3⟩, h4⟩, h5⟩, h6⟩ := hc
    rw [List.cons_append, lexWord_bare_cons]
    simp only [h1, h2, h3, h4, h5, h6, Bool.false_eq_true, if_false, ih hl, prepend_prepend,
      List.singleton_append]

/-- A text that is plain inside double quotes is read as itself up to the
closing quote. -/
theorem lexWord_double_plain (v s : List Char) (hv : plainInDoubleQuotes v = true) :
    lexWord (v ++ '"' :: s) .double = (lexWord s .bare).prepend v := by
  induction v with
  | nil =>
    rw [List.nil_append, lexWord_double_cons]
    simp [prepend_nil]
  | cons c v ih =>
    unfold plainInDoubleQuotes at hv
    rw [List.cons_append, lexWord_double_cons]
    by_cases h1 : (c == '"' || c == Char.ofNat 96 || c == Char.ofNat 0) = true
    · simp [h1] at hv
    · have h1a : (c == '"') = false := by
        cases hq : (c == '"') <;> simp_all
      have h1b : (c == Char.ofNat 96 || c == Char.ofNat 0) = false := by
        cases hq : (c == Char.ofNat 96 || c == Char.ofNat 0) <;> simp_all
      simp only [h1, Bool.false_eq_true, if_false] at hv
      simp only [h1a, h1b, Bool.false_eq_true, if_false]
      by_cases h2 : (c == '\\') = true
      · simp only [h2, if_true] at hv ⊢
        have hc : c = '\\' := by simpa using h2
        rw [head?_append_cons]
        cases hh : v.head? with
        | none => simp [hh] at hv
        | some d =>
          simp only [hh, Bool.and_eq_true, Bool.not_eq_true'] at hv
          simp only [Option.getD_some, hv.1, Bool.false_eq_true, if_false, ih hv.2,
            prepend_prepend, List.singleton_append, hc]
      · simp only [h2, Bool.false_eq_true, if_false] at hv ⊢
        by_cases h3 : (c == '$') = true
        · simp only [h3, if_true] at hv ⊢
          have hc : c = '$' := by simpa using h3
          rw [head?_append_cons]
          cases hh : v.head? with
          | none =>
            simp only [hh] at hv
            have hs : startsExpansion '"' = false := by decide
            simp only [Option.getD_none, hs, Bool.false_eq_true, if_false, ih hv,
              prepend_prepend, List.singleton_append, hc]
          | some d =>
            simp only [hh, Bool.and_eq_true, Bool.not_eq_true'] at hv
            simp only [Option.getD_some, hv.1, Bool.false_eq_true, if_false, ih hv.2,
              prepend_prepend, List.singleton_append, hc]
        · simp only [h3, Bool.false_eq_true, if_false] at hv ⊢
          simp only [ih hv, prepend_prepend, List.singleton_append]

/-- After a word, an empty text or a text that starts with a space ends it. -/
theorem lexWord_bare_end (rest : List Char) (hr : rest = [] ∨ ∃ b, rest = ' ' :: b) :
    lexWord rest .bare = .word [] rest := by
  rcases hr with hr | ⟨b, hr⟩
  · subst hr
    rfl
  · subst hr
    rfl

theorem nextWord_space (s : List Char) : nextWord (' ' :: s) = nextWord s := rfl

theorem nextWord_of_plain (c : Char) (s : List Char) (hc : plainInBareWord c = true)
    (hh : (c == '#') = false) : nextWord (c :: s) = lexWord (c :: s) .bare := by
  simp only [plainInBareWord, Bool.and_eq_true, Bool.not_eq_true'] at hc
  have h1 := hc.1.1.1.1.1
  have hsp : (c == ' ' || c == '\t') = false := by
    simp only [endsBareWord, Bool.or_eq_false_iff] at h1
    simp [h1.1.1.1.1.1, h1.1.1.1.1.2]
  show (if c == ' ' || c == '\t' then nextWord s
    else if endsBareWord c then .noWord
    else if c == '#' then .special
    else lexWord (c :: s) .bare) = _
  simp only [hsp, h1, hh, Bool.false_eq_true, if_false]

/-- A plain word that is followed by a space is read as itself. -/
theorem nextWord_plain_word (c : Char) (w rest : List Char)
    (hw : ∀ d ∈ c :: w, plainInBareWord d = true) (hh : (c == '#') = false) :
    nextWord (c :: w ++ ' ' :: rest) = .word (c :: w) (' ' :: rest) := by
  rw [List.cons_append, nextWord_of_plain c _ (hw c (by simp)) hh, ← List.cons_append,
    lexWord_bare_plain _ _ hw, lexWord_bare_end _ (Or.inr ⟨rest, rfl⟩)]
  simp [WordRead.prepend]

/-- A plain flag name followed by a double-quoted value that is plain inside
double quotes is read as one word: the name and the value. -/
theorem nextWord_quoted_flag (c : Char) (flag v rest : List Char)
    (hf : ∀ d ∈ c :: flag, plainInBareWord d = true) (hh : (c == '#') = false)
    (hv : plainInDoubleQuotes v = true) (hr : rest = [] ∨ ∃ b, rest = ' ' :: b) :
    nextWord (c :: flag ++ '"' :: (v ++ '"' :: rest)) = .word (c :: flag ++ v) rest := by
  rw [List.cons_append, nextWord_of_plain c _ (hf c (by simp)) hh, ← List.cons_append,
    lexWord_bare_plain _ _ hf, lexWord_bare_cons]
  have hq1 : endsBareWord '"' = false := by decide
  have hq2 : specialInBareWord '"' = false := by decide
  simp only [hq1, hq2, Bool.false_eq_true, if_false, beq_self_eq_true, if_true]
  rw [lexWord_double_plain _ _ hv, lexWord_bare_end _ hr]
  simp [WordRead.prepend]

theorem spaceLed_append (a b : List Char) (ha : a = [] ∨ ∃ x, a = ' ' :: x)
    (hb : b = [] ∨ ∃ x, b = ' ' :: x) : a ++ b = [] ∨ ∃ x, a ++ b = ' ' :: x := by
  rcases ha with ha | ⟨x, ha⟩
  · subst ha
    simpa using hb
  · subst ha
    exact Or.inr ⟨x ++ b, rfl⟩

/-- The suffix of optional flags is empty or starts with a space. -/
theorem additionalArgs_spaceLed (p : Plugin) :
    (additionalArgs p).data = [] ∨ ∃ b, (additionalArgs p).data = ' ' :: b := by
  have h1 := spaceLed_ite (p.BlackduckOfflineMode = true) " --blackduck.offline.mode=true"
    (Or.inr ⟨_, rfl⟩)
  have h2 := spaceLed_ite (p.BlackduckTestConnection = true) " --detect.test.connection=true"
    (Or.inr ⟨_, rfl⟩)
  have h3 := spaceLed_ite (p.BlackduckOfflineBDIO = true)
    " --blackduck.offline.mode.force.bdio=true" (Or.inr ⟨_, rfl⟩)
  have h4 := spaceLed_ite (p.BlackduckTrustCerts = true) " --blackduck.trust.cert=true"
    (Or.inr ⟨_, rfl⟩)
  have h5 := spaceLed_ite (0 < p.BlackduckTimeout)
    (" --detect.timeout=" ++ Nat.repr p.BlackduckTimeout.toNat) (Or.inr ⟨_, rfl⟩)
  have h6 := spaceLed_ite (p.BlackduckScanMode = "RAPID" ∨ p.BlackduckScanMode = "STATELESS"
      ∨ p.BlackduckScanMode = "INTELLIGENT")
    (" --detect.blackduck.scan.mode=" ++ p.BlackduckScanMode) (Or.inr ⟨_, rfl⟩)
  have h7 : (if p.BLackduckProperties = "" then "" else " " ++ p.BLackduckProperties).data = []
      ∨ ∃ b, (if p.BLackduckProperties = "" then "" else " " ++ p.BLackduckProperties).data
        = ' ' :: b := by
    split
    · exact Or.inl rfl
    · exact Or.inr ⟨_, rfl⟩
  rw [additionalArgs_eq_optionalFlags]
  unfold optionalFlags
  simp only [String.data_append]
  exact spaceLed_append _ _ (spaceLed_append _ _ (spaceLed_append _ _ (spaceLed_append _ _
    (spaceLed_append _ _ (spaceLed_append _ _ h1 h2) h3) h4) h5) h6) h7

/-- Bash reads a POSIX command string whose three values are plain inside
double quotes as the scanner invocation and three flag words, each holding its
value unchanged, followed by the suffix. -/
theorem readWords_posixCommand (u t pr rest : String)
    (hu : plainInDoubleQuotes u.data = true) (ht : plainInDoubleQuotes t.data = true)
    (hp : plainInDoubleQuotes pr.data = true)
    (hr : rest.data = [] ∨ ∃ b, rest.data = ' ' :: b) :
    readWords 6 (posixCommand u t pr ++ rest).data =
      .read ["java", "-jar", "/opt/synopsys-detect-9.7.0.jar", "--blackduck.url=" ++ u,
        "--blackduck.api.token=" ++ t, "--detect.project.name=" ++ pr] rest := by
  have hdata : (posixCommand u t pr ++ rest).data =
      ('j' :: "ava".data) ++ ' ' :: (('-' :: "jar".data) ++ ' ' ::
        (('/' :: "opt/synopsys-detect-9.7.0.jar".data) ++ ' ' ::
          (('-' :: "-blackduck.url=".data) ++ '"' :: (u.data ++ '"' :: (' ' ::
            (('-' :: "-blackduck.api.token=".data) ++ '"' :: (t.data ++ '"' :: (' ' ::
              (('-' :: "-detect.project.name=".data) ++ '"' ::
                (pr.data ++ '"' :: rest.data)))))))))) := by
    simp [posixCommand]
  rw [hdata]
  simp only [readWords]
  rw [nextWord_plain_word 'j' "ava".data _ (by decide) (by decide)]
  simp only [nextWord_space]
  rw [nextWord_plain_word '-' "jar".data _ (by decide) (by decide)]
  simp only [nextWord_space]
  rw [nextWord_plain_word '/' "opt/synopsys-detect-9.7.0.jar".data _ (by decide) (by decide)]
  simp only [nextWord_space]
  rw [nextWord_quoted_flag '-' "-blackduck.url=".data u.data _ (by decide) (by decide) hu
    (Or.inr ⟨_, rfl⟩)]
  simp only [nextWord_space]
  rw [nextWord_quoted_flag '-' "-blackduck.api.token=".data t.data _ (by decide) (by decide) ht
    (Or.inr ⟨_, rfl⟩)]
  simp only [nextWord_space]
  rw [nextWord_quoted_flag '-' "-detect.project.name=".data pr.data _ (by decide) (by decide) hp
    hr]
  simp only [WordsRead.push]
  congr 1

/-- For non-empty URL, token and project the command string holds the three
mandatory flags with the quoting of its platform: with double-quoted values on
every host that is not Windows, and with single-quoted values on Windows. -/
theorem shellCommand_holds_flags_quoted_per_platform (h : Host) (p : Plugin)
    (hU : p.BlackduckURL ≠ "") (hT : p.BlackduckToken ≠ "") (hP : p.BlackduckProject ≠ "") :
    missingRequired p = false ∧
    ∃ cmd, shellCommand h p = some cmd ∧
      (h.GOOS ≠ "windows" →
        ("--blackduck.url=\"" ++ p.BlackduckURL ++ "\"").data <:+: cmd.data ∧
        ("--blackduck.api.token=\"" ++ p.BlackduckToken ++ "\"").data <:+: cmd.data ∧
        ("--detect.project.name=\"" ++ p.BlackduckProject ++ "\"").data <:+: cmd.data) ∧
      (h.GOOS = "windows" →
        ("--blackduck.url='" ++ p.BlackduckURL ++ "'").data <:+: cmd.data ∧
        ("--blackduck.api.token='" ++ p.BlackduckToken ++ "'").data <:+: cmd.data ∧
        ("--detect.project.name='" ++ p.BlackduckProject ++ "'").data <:+: cmd.data) := by
  refine ⟨missingRequired_of_valid p hU hT hP, _, shellCommand_eq h p, ?_, ?_⟩
  · intro hg
    rw [if_neg hg]
    refine ⟨⟨"java -jar /opt/synopsys-detect-9.7.0.jar ".data,
        (" --blackduck.api.token=\"" ++ p.BlackduckToken ++ "\" --detect.project.name=\""
          ++ p.BlackduckProject ++ "\"" ++ optionalFlags p).data, ?_⟩,
      ⟨("java -jar /opt/synopsys-detect-9.7.0.jar --blackduck.url=\"" ++ p.BlackduckURL
          ++ "\" ").data,
        (" --detect.project.name=\"" ++ p.BlackduckProject ++ "\"" ++ optionalFlags p).data, ?_⟩,
      ⟨("java -jar /opt/synopsys-detect-9.7.0.jar --blackduck.url=\"" ++ p.BlackduckURL
          ++ "\" --blackduck.api.token=\"" ++ p.BlackduckToken ++ "\" ").data,
        (optionalFlags p).data, ?_⟩⟩ <;> simp [posixCommand]
  · intro hg
    rw [if_pos hg]
    refine ⟨⟨"java -jar 'C:\\opt\\synopsys-detect-9.7.0.jar' ".data,
        (" --blackduck.api.token='" ++ p.BlackduckToken ++ "' --detect.project.name='"
          ++ p.BlackduckProject ++ "'" ++ optionalFlags p).data, ?_⟩,
      ⟨("java -jar 'C:\\opt\\synopsys-detect-9.7.0.jar' --blackduck.url='" ++ p.BlackduckURL
          ++ "' ").data,
        (" --detect.project.name='" ++ p.BlackduckProject ++ "'" ++ optionalFlags p).data, ?_⟩,
      ⟨("java -jar 'C:\\opt\\synopsys-detect-9.7.0.jar' --blackduck.url='" ++ p.BlackduckURL
          ++ "' --blackduck.api.token='" ++ p.BlackduckToken ++ "' ").data,
        (optionalFlags p).data, ?_⟩⟩ <;> simp [windowsScript]

/-! ## The claims -/

/-- C1: when one of BlackduckURL, BlackduckToken or BlackduckProject is empty,
`runBlackDuckScan` and `Plugin.Exec` return the configuration error with the
message "BLACKDUCK_URL, BLACKDUCK_TOKEN and BLACKDUCK_PROJECT environment
variables must be set", whatever the other fields, the host and the context
are, and no event at all has happened by then: nothing was logged, nothing
echoed, no child started. -/
theorem C1_missing_required_fields_fail_first (h : Host) (p : Plugin) (ctx : Context)
    (hmiss : p.BlackduckURL = "" ∨ p.BlackduckToken = "" ∨ p.BlackduckProject = "") :
    ∃ err : GoError,
      err.Error = "BLACKDUCK_URL, BLACKDUCK_TOKEN and BLACKDUCK_PROJECT environment variables must be set" ∧
      runBlackDuckScan h p = ([], .returned (some err)) ∧
      p.Exec h ctx = ([], .returned (some err)) := by
  have hm := missingRequired_of_empty p hmiss
  have hrun : runBlackDuckScan h p = ([], .returned (some (.errorf configErrorMessage))) := by
    simp [runBlackDuckScan, hm]
  refine ⟨.errorf configErrorMessage, rfl, hrun, ?_⟩
  rw [Exec_eq_runBlackDuckScan, hrun]

/-- C1 at the configuration of the test "missing required fields" (all three
empty), on a host where every child would succeed. -/
theorem C1_missing_required_fields_fail_first_witness :
    ∃ err : GoError,
      err.Error = "BLACKDUCK_URL, BLACKDUCK_TOKEN and BLACKDUCK_PROJECT environment variables must be set" ∧
      runBlackDuckScan linuxHost
        { basicPlugin with BlackduckURL := "", BlackduckToken := "", BlackduckProject := "" }
        = ([], .returned (some err)) ∧
      Plugin.Exec linuxHost
        { basicPlugin with BlackduckURL := "", BlackduckToken := "", BlackduckProject := "" }
        Context.Background = ([], .returned (some err)) :=
  C1_missing_required_fields_fail_first linuxHost
    { basicPlugin with BlackduckURL := "", BlackduckToken := "", BlackduckProject := "" }
    Context.Background (Or.inl rfl)

/-- C2: on a host that is not Windows, for non-empty URL, token and project the
argument vector that is built is `bash`, `-c` and one command string: the
scanner invocation with the three mandatory flags in the order URL, token,
project, each value between double quotes, followed by the optional flags in
the fixed order offline mode, test connection, offline BDIO, trust
certificates, timeout (in decimal, when positive), scan mode (when RAPID,
STATELESS or INTELLIGENT), extra properties (after a space, when non-empty). -/
theorem C2_posix_argument_vector (h : Host) (p : Plugin) (hg : h.GOOS ≠ "windows")
    (hU : p.BlackduckURL ≠ "") (hT : p.BlackduckToken ≠ "") (hP : p.BlackduckProject ≠ "") :
    missingRequired p = false ∧
    builtArgs h p = some ["bash", "-c",
      "java -jar /opt/synopsys-detect-9.7.0.jar --blackduck.url=\"" ++ p.BlackduckURL ++
      "\" --blackduck.api.token=\"" ++ p.BlackduckToken ++
      "\" --detect.project.name=\"" ++ p.BlackduckProject ++ "\"" ++
      ((if p.BlackduckOfflineMode then " --blackduck.offline.mode=true" else "") ++
       (if p.BlackduckTestConnection then " --detect.test.connection=true" else "") ++
       (if p.BlackduckOfflineBDIO then " --blackduck.offline.mode.force.bdio=true" else "") ++
       (if p.BlackduckTrustCerts then " --blackduck.trust.cert=true" else "") ++
       (if 0 < p.BlackduckTimeout then
         " --detect.timeout=" ++ Nat.repr p.BlackduckTimeout.toNat else "") ++
       (if p.BlackduckScanMode = "RAPID" ∨ p.BlackduckScanMode = "STATELESS"
           ∨ p.BlackduckScanMode = "INTELLIGENT" then
         " --detect.blackduck.scan.mode=" ++ p.BlackduckScanMode else "") ++
       (if p.BLackduckProperties = "" then "" else " " ++ p.BLackduckProperties))] := by
  refine ⟨missingRequired_of_valid p hU hT hP, ?_⟩
  unfold builtArgs
  rw [buildCmd_posix h p hg, additionalArgs_eq_optionalFlags]
  simp only [Command_Args]
  rfl

/-- C2 at the end-to-end example of the specification (offline mode set): the
vector is `bash -c` with the three mandatory flags followed by the offline
flag. -/
theorem C2_posix_argument_vector_witness :
    builtArgs linuxHost offlinePlugin = some ["bash", "-c",
      "java -jar /opt/synopsys-detect-9.7.0.jar --blackduck.url=\"https://blackduck.example.com\" --blackduck.api.token=\"test-token\" --detect.project.name=\"test-project\" --blackduck.offline.mode=true"] :=
  (C2_posix_argument_vector linuxHost offlinePlugin (by decide) (by decide) (by decide)
    (by decide)).2.trans rfl

/-- C3: for a minimal valid configuration (the three required fields non-empty,
the four booleans false, timeout 0, scan mode and extra properties empty) the
command string holds the three mandatory flags in the order URL, token,
project and nothing after the closing quote of the project name: with double
quotes after `bash -c` on a host that is not Windows, and with single quotes
after `powershell.exe -Command` on Windows. -/
theorem C3_minimal_config_only_mandatory_flags (h : Host) (p : Plugin)
    (hU : p.BlackduckURL ≠ "") (hT : p.BlackduckToken ≠ "") (hP : p.BlackduckProject ≠ "")
    (h1 : p.BlackduckOfflineMode = false) (h2 : p.BlackduckTestConnection = false)
    (h3 : p.BlackduckOfflineBDIO = false) (h4 : p.BlackduckTrustCerts = false)
    (h5 : p.BlackduckTimeout = 0) (h6 : p.BlackduckScanMode = "")
    (h7 : p.BLackduckProperties = "") :
    missingRequired p = false ∧
    (h.GOOS ≠ "windows" → builtArgs h p = some ["bash", "-c",
      "java -jar /opt/synopsys-detect-9.7.0.jar --blackduck.url=\"" ++ p.BlackduckURL ++
      "\" --blackduck.api.token=\"" ++ p.BlackduckToken ++
      "\" --detect.project.name=\"" ++ p.BlackduckProject ++ "\""]) ∧
    (h.GOOS = "windows" → builtArgs h p = some ["powershell.exe", "-Command",
      "java -jar 'C:\\opt\\synopsys-detect-9.7.0.jar' --blackduck.url='" ++ p.BlackduckURL ++
      "' --blackduck.api.token='" ++ p.BlackduckToken ++
      "' --detect.project.name='" ++ p.BlackduckProject ++ "'"]) := by
  have hadd : additionalArgs p = "" := by
    simp [additionalArgs, appendScanMode, h1, h2, h3, h4, h5, h6, h7]
  refine ⟨missingRequired_of_valid p hU hT hP, ?_, ?_⟩
  · intro hg
    unfold builtArgs
    rw [buildCmd_posix h p hg, hadd]
    simp [Command_Args, posixCommand]
  · intro hg
    unfold builtArgs
    rw [buildCmd_windows h p hg, hadd]
    simp [Command_Args, windowsScript]

/-- C3 at the configuration of the test "basic command". -/
theorem C3_minimal_config_only_mandatory_flags_witness :
    builtArgs linuxHost basicPlugin = some ["bash", "-c",
      "java -jar /opt/synopsys-detect-9.7.0.jar --blackduck.url=\"https://blackduck.example.com\" --blackduck.api.token=\"test-token\" --detect.project.name=\"test-project\""] :=
  ((C3_minimal_config_only_mandatory_flags linuxHost basicPlugin (by decide) (by decide)
    (by decide) rfl rfl rfl rfl rfl rfl rfl).2.1 (by decide)).trans (by decide)

/-- C4: for non-empty URL, token and project a command is always built (no
panic), and `runBlackDuckScan` and `Plugin.Exec` return nil exactly when
running it reports no error, which is exactly when the program was found, the
child started and it exited with status 0; in every other case they return an
error that wraps the cause reported by the run, whose message is "failed to
execute Black Duck scan command: " followed by the text of the cause. -/
theorem C4_result_follows_child (h : Host) (p : Plugin) (ctx : Context)
    (hU : p.BlackduckURL ≠ "") (hT : p.BlackduckToken ≠ "") (hP : p.BlackduckProject ≠ "") :
    ∃ c : Cmd, buildCmd h p = .ok c ∧
      (p.Exec h ctx).2 = (runBlackDuckScan h p).2 ∧
      ((runBlackDuckScan h p).2 = .returned none ↔ (c.Run h).2 = none) ∧
      ((c.Run h).2 = none ↔ c.Err = none ∧ h.child c.Path c.Args = .exited 0) ∧
      (∀ cause, (c.Run h).2 = some cause →
        ∃ err : GoError, (runBlackDuckScan h p).2 = .returned (some err) ∧
          err.Unwrap = some cause ∧
          err.Error = "failed to execute Black Duck scan command: " ++ cause.Error) := by
  obtain ⟨c, hc⟩ := buildCmd_ok h p
  have hrun := runBlackDuckScan_of_valid h p c (missingRequired_of_valid p hU hT hP) hc
  refine ⟨c, hc, ?_, ?_, Run_eq_none_iff h c, ?_⟩
  · rw [Exec_eq_runBlackDuckScan]
  · rw [hrun]
    cases hr : (c.Run h).2 <;> simp
  · intro cause hcause
    refine ⟨.wrapf (execErrorPrefix ++ cause.Error) cause, ?_, rfl, rfl⟩
    rw [hrun]
    simp [hcause]

/-- C4 on a host where the child exits with status 1: the basic configuration
is valid, and the result wraps "exit status 1". -/
theorem C4_result_follows_child_witness :
    ∃ c : Cmd, buildCmd { linuxHost with child := fun _ _ => .exited 1 } basicPlugin = .ok c ∧
      (basicPlugin.Exec { linuxHost with child := fun _ _ => .exited 1 } Context.Background).2 =
        (runBlackDuckScan { linuxHost with child := fun _ _ => .exited 1 } basicPlugin).2 ∧
      ((runBlackDuckScan { linuxHost with child := fun _ _ => .exited 1 } basicPlugin).2
          = .returned none ↔
        (c.Run { linuxHost with child := fun _ _ => .exited 1 }).2 = none) ∧
      ((c.Run { linuxHost with child := fun _ _ => .exited 1 }).2 = none ↔
        c.Err = none ∧ ChildResult.exited 1 = .exited 0) ∧
      (∀ cause, (c.Run { linuxHost with child := fun _ _ => .exited 1 }).2 = some cause →
        ∃ err : GoError,
          (runBlackDuckScan { linuxHost with child := fun _ _ => .exited 1 } basicPlugin).2
            = .returned (some err) ∧
          err.Unwrap = some cause ∧
          err.Error = "failed to execute Black Duck scan command: " ++ cause.Error) :=
  C4_result_follows_child { linuxHost with child := fun _ _ => .exited 1 } basicPlugin
    Context.Background (by decide) (by decide) (by decide)

/-- C5, refuted: the basic configuration is valid and the context handed to
`Exec` is already canceled, yet the child is started, runs to its end, and
`Exec` returns nil: no cancellation error, and the same result as with the
background context. -/
theorem C5_canceled_context_is_ignored :
    missingRequired basicPlugin = false ∧
    (⟨some .canceled⟩ : Context).Err ≠ none ∧
    basicPlugin.Exec linuxHost ⟨some .canceled⟩ =
      ([.printed "Running command: /bin/bash -c java -jar /opt/synopsys-detect-9.7.0.jar --blackduck.url=\"https://blackduck.example.com\" --blackduck.api.token=\"test-token\" --detect.project.name=\"test-project\"\n",
        .spawned "/bin/bash" ["bash", "-c",
          "java -jar /opt/synopsys-detect-9.7.0.jar --blackduck.url=\"https://blackduck.example.com\" --blackduck.api.token=\"test-token\" --detect.project.name=\"test-project\""]],
       .returned none) ∧
    (¬ ∃ e : GoError, (basicPlugin.Exec linuxHost ⟨some .canceled⟩).2 = .returned (some e)
        ∧ e.isCancellation = true) ∧
    basicPlugin.Exec linuxHost ⟨some .canceled⟩ =
      basicPlugin.Exec linuxHost Context.Background := by
  have hval : basicPlugin.Exec linuxHost ⟨some .canceled⟩ =
      ([.printed "Running command: /bin/bash -c java -jar /opt/synopsys-detect-9.7.0.jar --blackduck.url=\"https://blackduck.example.com\" --blackduck.api.token=\"test-token\" --detect.project.name=\"test-project\"\n",
        .spawned "/bin/bash" ["bash", "-c",
          "java -jar /opt/synopsys-detect-9.7.0.jar --blackduck.url=\"https://blackduck.example.com\" --blackduck.api.token=\"test-token\" --detect.project.name=\"test-project\""]],
       .returned none) := by rfl
  refine ⟨by decide, by decide, hval, ?_, rfl⟩
  rintro ⟨e, he, -⟩
  rw [hval] at he
  simp at he

/-- C5, amended: `Plugin.Exec` does not look at its context.  For every host,
configuration and pair of contexts the two calls have the same events and the
same result, which are those of `runBlackDuckScan`; and no error that `Exec`
returns is a cancellation error (none has `context.Canceled` or
`context.DeadlineExceeded` in its chain). -/
theorem C5_exec_independent_of_context (h : Host) (p : Plugin) (ctx ctx2 : Context) :
    p.Exec h ctx = p.Exec h ctx2 ∧
    p.Exec h ctx = runBlackDuckScan h p ∧
    (∀ e : GoError, (p.Exec h ctx).2 = .returned (some e) → e.isCancellation = false) := by
  refine ⟨by rw [Exec_eq_runBlackDuckScan, Exec_eq_runBlackDuckScan],
    Exec_eq_runBlackDuckScan h p ctx, ?_⟩
  intro e he
  rw [Exec_eq_runBlackDuckScan] at he
  cases hm : missingRequired p with
  | true =>
    simp [runBlackDuckScan, hm] at he
    subst he
    rfl
  | false =>
    obtain ⟨c, hc⟩ := buildCmd_ok h p
    have hcErr : ∀ e0, c.Err = some e0 → e0.isCancellation = false := by
      intro e0 h0
      by_cases hg : h.GOOS = "windows"
      · rw [buildCmd_windows h p hg] at hc
        injection hc with hc
        subst hc
        exact Command_Err_isCancellation _ _ _ _ h0
      · rw [buildCmd_posix h p hg] at hc
        injection hc with hc
        subst hc
        exact Command_Err_isCancellation _ _ _ _ h0
    rw [runBlackDuckScan_of_valid h p c hm hc] at he
    cases hr : (c.Run h).2 with
    | none => simp [hr] at he
    | some cause =>
      simp [hr] at he
      subst he
      exact Run_isCancellation h c cause hcErr hr

/-- C6, refuted: a value that holds a double quote ends its own quotation.
With the URL `quoteBreakingURL` bash reads the URL flag with the value `a`,
then the token and the project that the URL brought along, and a further flag
stands in the command line before the real token and project.  Values
without a double quote are not read as themselves either: after the URL `a\`
the closing quote is protected and the quotation that the project flag opens
last is never closed; the URLs `$(id)`, `$HOME` and a URL between backticks
are expansions; and of the two backslashes of the URL `a\\b` bash keeps
one. -/
theorem C6_quote_in_value_breaks_quotation :
    missingRequired { basicPlugin with BlackduckURL := quoteBreakingURL } = false ∧
    (shellCommand linuxHost { basicPlugin with BlackduckURL := quoteBreakingURL }).map
        (fun cmd => readWords 6 cmd.data) =
      some (.read ["java", "-jar", "/opt/synopsys-detect-9.7.0.jar", "--blackduck.url=a",
          "--blackduck.api.token=other-token", "--detect.project.name=other-project"]
        " --detect.tools=\"NONE\" --blackduck.api.token=\"test-token\" --detect.project.name=\"test-project\"") ∧
    (shellCommand linuxHost { basicPlugin with BlackduckURL := quoteBreakingURL }).map
        (fun cmd => readWords 6 cmd.data) ≠
      some (.read ["java", "-jar", "/opt/synopsys-detect-9.7.0.jar",
          "--blackduck.url=" ++ quoteBreakingURL, "--blackduck.api.token=test-token",
          "--detect.project.name=test-project"]
        (additionalArgs { basicPlugin with BlackduckURL := quoteBreakingURL })) ∧
    (shellCommand linuxHost { basicPlugin with BlackduckURL := backslashURL }).map
        (fun cmd => readWords 6 cmd.data) =
      some (.stopped ["java", "-jar", "/opt/synopsys-detect-9.7.0.jar"] .unterminated) ∧
    (shellCommand linuxHost { basicPlugin with BlackduckURL := substitutionURL }).map
        (fun cmd => readWords 6 cmd.data) =
      some (.stopped ["java", "-jar", "/opt/synopsys-detect-9.7.0.jar"] .special) ∧
    (shellCommand linuxHost { basicPlugin with BlackduckURL := "$HOME" }).map
        (fun cmd => readWords 6 cmd.data) =
      some (.stopped ["java", "-jar", "/opt/synopsys-detect-9.7.0.jar"] .special) ∧
    (shellCommand linuxHost { basicPlugin with BlackduckURL := "`id`" }).map
        (fun cmd => readWords 6 cmd.data) =
      some (.stopped ["java", "-jar", "/opt/synopsys-detect-9.7.0.jar"] .special) ∧
    (shellCommand linuxHost { basicPlugin with BlackduckURL := "a\\\\b" }).map
        (fun cmd => readWords 6 cmd.data) =
      some (.read ["java", "-jar", "/opt/synopsys-detect-9.7.0.jar", "--blackduck.url=a\\b",
          "--blackduck.api.token=test-token", "--detect.project.name=test-project"] "") := by
  have hread : (shellCommand linuxHost { basicPlugin with BlackduckURL := quoteBreakingURL }).map
        (fun cmd => readWords 6 cmd.data) =
      some (.read ["java", "-jar", "/opt/synopsys-detect-9.7.0.jar", "--blackduck.url=a",
          "--blackduck.api.token=other-token", "--detect.project.name=other-project"]
        " --detect.tools=\"NONE\" --blackduck.api.token=\"test-token\" --detect.project.name=\"test-project\"") := by
    rfl
  refine ⟨by decide, hread, ?_, by rfl, by rfl, by rfl, by rfl, by rfl⟩
  rw [hread]
  decide

/-- C6, amended: on a host that is not Windows, for non-empty URL, token and
project that bash reads as themselves between double quotes (no double quote,
no backtick, no NUL, no backslash that stands last or before `$`, a backtick,
`"`, `\` or a newline, no `$` before a character that starts an expansion),
bash reads the command string as the scanner invocation followed by exactly
three flag words, `--blackduck.url=`, `--blackduck.api.token=` and
`--detect.project.name=`, each with its value unchanged, and what follows the
third is exactly the suffix of optional flags: no value ends its quotation and
none brings a word of its own. -/
theorem C6_plain_values_are_read_as_words (h : Host) (p : Plugin)
    (hg : h.GOOS ≠ "windows")
    (hU : p.BlackduckURL ≠ "") (hT : p.BlackduckToken ≠ "") (hP : p.BlackduckProject ≠ "")
    (hqU : plainInDoubleQuotes p.BlackduckURL.data = true)
    (hqT : plainInDoubleQuotes p.BlackduckToken.data = true)
    (hqP : plainInDoubleQuotes p.BlackduckProject.data = true) :
    missingRequired p = false ∧
    ∃ cmd, shellCommand h p = some cmd ∧
      readWords 6 cmd.data =
        .read ["java", "-jar", "/opt/synopsys-detect-9.7.0.jar",
          "--blackduck.url=" ++ p.BlackduckURL, "--blackduck.api.token=" ++ p.BlackduckToken,
          "--detect.project.name=" ++ p.BlackduckProject] (additionalArgs p) := by
  refine ⟨missingRequired_of_valid p hU hT hP,
    posixCommand p.BlackduckURL p.BlackduckToken p.BlackduckProject ++ additionalArgs p, ?_,
    readWords_posixCommand _ _ _ _ hqU hqT hqP (additionalArgs_spaceLed p)⟩
  unfold shellCommand builtArgs
  rw [buildCmd_posix h p hg]
  simp [Command_Args]

/-- C6 amended, at the configuration of the test "timeout" (timeout 300): the
three values of the tests are read unchanged, and the timeout flag follows. -/
theorem C6_plain_values_are_read_as_words_witness :
    ∃ cmd, shellCommand linuxHost { basicPlugin with BlackduckTimeout := 300 } = some cmd ∧
      readWords 6 cmd.data =
        .read ["java", "-jar", "/opt/synopsys-detect-9.7.0.jar",
          "--blackduck.url=https://blackduck.example.com", "--blackduck.api.token=test-token",
          "--detect.project.name=test-project"] " --detect.timeout=300" :=
  (C6_plain_values_are_read_as_words linuxHost { basicPlugin with BlackduckTimeout := 300 }
    (by decide) (by decide) (by decide) (by decide) (by decide) (by decide) (by decide)).2

/-- C7: for non-empty URL, token and project, on either platform: when the scan
mode is exactly RAPID, STATELESS or INTELLIGENT the command string is the one
built with scan mode and extra properties unset, followed by
` --detect.blackduck.scan.mode=` and that value (and then the extra
properties, if any); when the scan mode is another non-empty string the
command built is the one for the empty scan mode, nothing fails, and the run
goes on to the echo and the execution with the same result, the only
difference being the warning that is logged first. -/
theorem C7_scan_mode_flag (h : Host) (p : Plugin)
    (hU : p.BlackduckURL ≠ "") (hT : p.BlackduckToken ≠ "") (hP : p.BlackduckProject ≠ "") :
    (p.BlackduckScanMode = "RAPID" ∨ p.BlackduckScanMode = "STATELESS"
        ∨ p.BlackduckScanMode = "INTELLIGENT" →
      ∃ pre, shellCommand h { p with BlackduckScanMode := "", BLackduckProperties := "" }
          = some pre ∧
        shellCommand h p = some (pre ++ " --detect.blackduck.scan.mode=" ++ p.BlackduckScanMode
          ++ (if p.BLackduckProperties = "" then "" else " " ++ p.BLackduckProperties))) ∧
    (p.BlackduckScanMode ≠ "" → p.BlackduckScanMode ≠ "RAPID" →
        p.BlackduckScanMode ≠ "STATELESS" → p.BlackduckScanMode ≠ "INTELLIGENT" →
      buildCmd h p = buildCmd h { p with BlackduckScanMode := "" } ∧
      (∃ c, buildCmd h p = .ok c ∧
        Event.printed ("Running command: " ++ c.String ++ "\n") ∈ (runBlackDuckScan h p).1) ∧
      runBlackDuckScan h p =
        (Event.logged ("Unexpected BlackduckScanMode: " ++ p.BlackduckScanMode ++
            " \n Scan mode can be RAPID, STATELESS, INTELLIGENT.")
          :: (runBlackDuckScan h { p with BlackduckScanMode := "" }).1,
         (runBlackDuckScan h { p with BlackduckScanMode := "" }).2)) := by
  constructor
  · intro hm
    refine ⟨_, shellCommand_eq h _, ?_⟩
    rw [shellCommand_eq h p]
    simp [optionalFlags, hm, String.append_assoc]
  · intro h0 h1 h2 h3
    have hadd : additionalArgs p = additionalArgs { p with BlackduckScanMode := "" } := by
      simp [additionalArgs, appendScanMode, h0, h1, h2, h3]
    have hb : buildCmd h p = buildCmd h { p with BlackduckScanMode := "" } :=
      buildCmd_congr h p _ rfl rfl rfl hadd
    obtain ⟨c, hc⟩ := buildCmd_ok h p
    have hv := missingRequired_of_valid p hU hT hP
    have hv0 : missingRequired { p with BlackduckScanMode := "" } = false := hv
    have hrun := runBlackDuckScan_of_valid h p c hv hc
    have hrun0 := runBlackDuckScan_of_valid h { p with BlackduckScanMode := "" } c hv0
      (hb ▸ hc)
    have hw : scanModeWarning p =
        [Event.logged ("Unexpected BlackduckScanMode: " ++ p.BlackduckScanMode ++
            " \n Scan mode can be RAPID, STATELESS, INTELLIGENT.")] := by
      simp [scanModeWarning, h0, h1, h2, h3]
    have hw0 : scanModeWarning { p with BlackduckScanMode := "" } = [] := by
      simp [scanModeWarning]
    refine ⟨hb, ⟨c, hc, ?_⟩, ?_⟩
    · rw [hrun]
      simp
    · rw [hrun, hrun0, hw, hw0]
      simp

/-- C7 at the configuration of the test "invalid scan mode" (scan mode
INVALID): the theorem applies, and the command string is that of the basic
configuration. -/
theorem C7_scan_mode_flag_witness :
    shellCommand linuxHost { basicPlugin with BlackduckScanMode := "INVALID" } =
      shellCommand linuxHost basicPlugin ∧
    runBlackDuckScan linuxHost { basicPlugin with BlackduckScanMode := "INVALID" } =
      (Event.logged
          "Unexpected BlackduckScanMode: INVALID \n Scan mode can be RAPID, STATELESS, INTELLIGENT."
        :: (runBlackDuckScan linuxHost basicPlugin).1,
       (runBlackDuckScan linuxHost basicPlugin).2) :=
  ⟨by rfl,
    ((C7_scan_mode_flag linuxHost { basicPlugin with BlackduckScanMode := "INVALID" }
      (by decide) (by decide) (by decide)).2 (by decide) (by decide) (by decide)
      (by decide)).2.2⟩

/-- C8, refuted: with offline mode off and the extra properties holding the
offline flag, the command string holds one occurrence of the flag instead of
none; with offline mode on and the same extra properties it holds two instead
of one. -/
theorem C8_offline_flag_from_properties :
    missingRequired { basicPlugin with BLackduckProperties := "--blackduck.offline.mode=true" }
      = false ∧
    (shellCommand linuxHost
        { basicPlugin with BLackduckProperties := "--blackduck.offline.mode=true" }).map
      (countOccurrences "--blackduck.offline.mode=true") = some 1 ∧
    (shellCommand linuxHost
        { offlinePlugin with BLackduckProperties := "--blackduck.offline.mode=true" }).map
      (countOccurrences "--blackduck.offline.mode=true") = some 2 := by
  refine ⟨by decide, by rfl, by rfl⟩

/-- C8, amended: for non-empty URL, token and project, on either platform, the
number of occurrences of `--blackduck.offline.mode=true` in the command string
is one when offline mode is set and zero when it is not, plus the occurrences
of that text inside the URL, the token, the project and the extra properties
themselves.  So when none of these four values holds the text, the command
string holds it exactly once with offline mode set and not at all without. -/
theorem C8_offline_flag_count (h : Host) (p : Plugin)
    (hU : p.BlackduckURL ≠ "") (hT : p.BlackduckToken ≠ "") (hP : p.BlackduckProject ≠ "") :
    missingRequired p = false ∧
    ∃ cmd, shellCommand h p = some cmd ∧
      countOccurrences "--blackduck.offline.mode=true" cmd =
        (if p.BlackduckOfflineMode then 1 else 0)
          + countOccurrences "--blackduck.offline.mode=true" p.BlackduckURL
          + countOccurrences "--blackduck.offline.mode=true" p.BlackduckToken
          + countOccurrences "--blackduck.offline.mode=true" p.BlackduckProject
          + countOccurrences "--blackduck.offline.mode=true" p.BLackduckProperties ∧
      (countOccurrences "--blackduck.offline.mode=true" p.BlackduckURL = 0 →
        countOccurrences "--blackduck.offline.mode=true" p.BlackduckToken = 0 →
        countOccurrences "--blackduck.offline.mode=true" p.BlackduckProject = 0 →
        countOccurrences "--blackduck.offline.mode=true" p.BLackduckProperties = 0 →
        countOccurrences "--blackduck.offline.mode=true" cmd =
          if p.BlackduckOfflineMode then 1 else 0) := by
  refine ⟨missingRequired_of_valid p hU hT hP, ?_⟩
  obtain ⟨cmd, hcmd, hcount⟩ := countOccurrences_offlineFlag_shellCommand h p
  refine ⟨cmd, hcmd, hcount, ?_⟩
  intro h1 h2 h3 h4
  have hcount2 := hcount
  unfold offlineFlag at hcount2
  rw [hcount2, h1, h2, h3, h4]
  simp

/-- C8 amended, at the configuration of the test "offline mode": exactly one
occurrence. -/
theorem C8_offline_flag_count_witness :
    ∃ cmd, shellCommand linuxHost offlinePlugin = some cmd ∧
      countOccurrences "--blackduck.offline.mode=true" cmd = 1 := by
  obtain ⟨cmd, hcmd, -, hone⟩ :=
    (C8_offline_flag_count linuxHost offlinePlugin (by decide) (by decide) (by decide)).2
  exact ⟨cmd, hcmd, hone (by decide) (by decide) (by decide) (by decide)⟩

/-- C9: for non-empty URL, token and project, on either platform: when the
timeout n is positive the command string is the one built with timeout, scan
mode and extra properties unset, followed by ` --detect.timeout=` and the
decimal text of n (and then the scan-mode flag and the extra properties, if
any); when n is zero or negative the command built is the one for timeout 0. -/
theorem C9_timeout_flag (h : Host) (p : Plugin)
    (hU : p.BlackduckURL ≠ "") (hT : p.BlackduckToken ≠ "") (hP : p.BlackduckProject ≠ "") :
    missingRequired p = false ∧
    (0 < p.BlackduckTimeout →
      ∃ pre, shellCommand h
          { p with BlackduckTimeout := 0, BlackduckScanMode := "", BLackduckProperties := "" }
          = some pre ∧
        shellCommand h p = some (pre ++ " --detect.timeout="
          ++ Nat.repr p.BlackduckTimeout.toNat
          ++ (if p.BlackduckScanMode = "RAPID" ∨ p.BlackduckScanMode = "STATELESS"
                ∨ p.BlackduckScanMode = "INTELLIGENT" then
              " --detect.blackduck.scan.mode=" ++ p.BlackduckScanMode else "")
          ++ (if p.BLackduckProperties = "" then "" else " " ++ p.BLackduckProperties))) ∧
    (p.BlackduckTimeout ≤ 0 →
      buildCmd h p = buildCmd h { p with BlackduckTimeout := 0 }) := by
  refine ⟨missingRequired_of_valid p hU hT hP, ?_, ?_⟩
  · intro hn
    refine ⟨_, shellCommand_eq h _, ?_⟩
    rw [shellCommand_eq h p]
    simp [optionalFlags, hn, String.append_assoc]
  · intro hn
    have hadd : additionalArgs p = additionalArgs { p with BlackduckTimeout := 0 } := by
      have hn2 : ¬ 0 < p.BlackduckTimeout := by omega
      simp [additionalArgs, hn2]
    exact buildCmd_congr h p _ rfl rfl rfl hadd

/-- C9 at the configuration of the test "timeout" (timeout 300): the theorem
applies, and the command string ends in `--detect.timeout=300`. -/
theorem C9_timeout_flag_witness :
    (∃ pre, shellCommand linuxHost basicPlugin = some pre ∧
      shellCommand linuxHost { basicPlugin with BlackduckTimeout := 300 } =
        some (pre ++ " --detect.timeout=" ++ "300" ++ "" ++ "")) ∧
    shellCommand linuxHost { basicPlugin with BlackduckTimeout := 300 } = some
      "java -jar /opt/synopsys-detect-9.7.0.jar --blackduck.url=\"https://blackduck.example.com\" --blackduck.api.token=\"test-token\" --detect.project.name=\"test-project\" --detect.timeout=300" :=
  ⟨(C9_timeout_flag linuxHost { basicPlugin with BlackduckTimeout := 300 }
      (by decide) (by decide) (by decide)).2.1 (by decide), by rfl⟩

/-- C10: for non-empty URL, token and project, on either platform: the
command string built without the extra properties does not end in a space;
with a non-empty extra-properties string E the command string is that one
followed by one space and E, unchanged, so E comes after all other flags; with
an empty E the command string is that one, with nothing appended. -/
theorem C10_extra_properties_last (h : Host) (p : Plugin)
    (hU : p.BlackduckURL ≠ "") (hT : p.BlackduckToken ≠ "") (hP : p.BlackduckProject ≠ "") :
    missingRequired p = false ∧
    ∃ pre, shellCommand h { p with BLackduckProperties := "" } = some pre ∧
      pre.data.getLast? ≠ some ' ' ∧
      (p.BLackduckProperties ≠ "" →
        shellCommand h p = some (pre ++ " " ++ p.BLackduckProperties)) ∧
      (p.BLackduckProperties = "" → shellCommand h p = some pre) := by
  refine ⟨missingRequired_of_valid p hU hT hP, ?_⟩
  obtain ⟨pre, hpre, hlast⟩ :=
    shellCommand_no_trailing_space h { p with BLackduckProperties := "" } rfl
  refine ⟨pre, hpre, hlast, ?_, ?_⟩
  · intro he
    rw [shellCommand_eq] at hpre ⊢
    injection hpre with hpre
    rw [← hpre]
    simp [optionalFlags, he, String.append_assoc]
  · intro he
    rw [shellCommand_eq] at hpre ⊢
    injection hpre with hpre
    rw [← hpre]
    simp [optionalFlags, he, String.append_assoc]

/-- C10 at the configuration of the test "additional properties": the command
string is that of the basic configuration followed by a space and
`--detect.tools=DETECTOR`. -/
theorem C10_extra_properties_last_witness :
    shellCommand linuxHost { basicPlugin with BLackduckProperties := "--detect.tools=DETECTOR" }
      = some
      "java -jar /opt/synopsys-detect-9.7.0.jar --blackduck.url=\"https://blackduck.example.com\" --blackduck.api.token=\"test-token\" --detect.project.name=\"test-project\" --detect.tools=DETECTOR" := by
  obtain ⟨pre, hpre, -, hE, -⟩ :=
    (C10_extra_properties_last linuxHost
      { basicPlugin with BLackduckProperties := "--detect.tools=DETECTOR" }
      (by decide) (by decide) (by decide)).2
  have hpre2 : pre = "java -jar /opt/synopsys-detect-9.7.0.jar --blackduck.url=\"https://blackduck.example.com\" --blackduck.api.token=\"test-token\" --detect.project.name=\"test-project\"" := by
    have hb : shellCommand linuxHost
        { ({ basicPlugin with BLackduckProperties := "--detect.tools=DETECTOR" } : Plugin) with
          BLackduckProperties := "" } = some
        "java -jar /opt/synopsys-detect-9.7.0.jar --blackduck.url=\"https://blackduck.example.com\" --blackduck.api.token=\"test-token\" --detect.project.name=\"test-project\"" := by
      rfl
    rw [hb] at hpre
    injection hpre with hpre
    exact hpre.symm
  rw [hE (by decide), hpre2]
  rfl

/-- C11: for non-empty URL, token and project the whole scanner command is one
element of the argument vector.  On Windows the vector is `powershell.exe`,
`-Command` and the single-quoted scanner invocation followed by the optional
flags; on every other host it is `bash`, `-c` and the double-quoted
invocation followed by the optional flags.  The vector has exactly three
elements, the slice indexed on the Windows branch has a third element, and
the run never panics. -/
theorem C11_command_is_one_argument (h : Host) (p : Plugin)
    (hU : p.BlackduckURL ≠ "") (hT : p.BlackduckToken ≠ "") (hP : p.BlackduckProject ≠ "") :
    missingRequired p = false ∧
    (h.GOOS = "windows" → builtArgs h p = some ["powershell.exe", "-Command",
      "java -jar 'C:\\opt\\synopsys-detect-9.7.0.jar' --blackduck.url='" ++ p.BlackduckURL ++
      "' --blackduck.api.token='" ++ p.BlackduckToken ++
      "' --detect.project.name='" ++ p.BlackduckProject ++ "'" ++ optionalFlags p]) ∧
    (h.GOOS ≠ "windows" → builtArgs h p = some ["bash", "-c",
      "java -jar /opt/synopsys-detect-9.7.0.jar --blackduck.url=\"" ++ p.BlackduckURL ++
      "\" --blackduck.api.token=\"" ++ p.BlackduckToken ++
      "\" --detect.project.name=\"" ++ p.BlackduckProject ++ "\"" ++ optionalFlags p]) ∧
    (∃ argv, builtArgs h p = some argv ∧ argv.length = 3) ∧
    (h.GOOS = "windows" → ∃ script, (initialArgs h.GOOS p).get? 2 = some script) ∧
    (∀ msg, (runBlackDuckScan h p).2 ≠ .panicked msg) := by
  refine ⟨missingRequired_of_valid p hU hT hP, ?_, ?_, ?_, ?_, runBlackDuckScan_no_panic h p⟩
  · intro hg
    rw [builtArgs_eq, additionalArgs_eq_optionalFlags, if_pos hg]
    rfl
  · intro hg
    rw [builtArgs_eq, additionalArgs_eq_optionalFlags, if_neg hg]
    rfl
  · refine ⟨_, builtArgs_eq h p, ?_⟩
    split <;> rfl
  · intro hg
    simp [initialArgs, hg]

/-- C11 on the Windows host, at the configuration of the test "offline
mode". -/
theorem C11_command_is_one_argument_witness :
    builtArgs windowsHost offlinePlugin = some ["powershell.exe", "-Command",
      "java -jar 'C:\\opt\\synopsys-detect-9.7.0.jar' --blackduck.url='https://blackduck.example.com' --blackduck.api.token='test-token' --detect.project.name='test-project' --blackduck.offline.mode=true"] :=
  ((C11_command_is_one_argument windowsHost offlinePlugin (by decide) (by decide)
    (by decide)).2.1 (by decide)).trans rfl

/-- C12: the code does not build what the test expects on Windows.  On the
Windows host, where the assertions of the test run, the command string built
for the configuration of the test "basic command" holds none of the three
double-quoted flags that the test lists (it holds no double quote at all). -/
theorem C12_windows_command_has_no_double_quoted_flag :
    windowsHost.GOOS = "windows" ∧
    missingRequired basicPlugin = false ∧
    ∃ cmd, shellCommand windowsHost basicPlugin = some cmd ∧
      ¬ ("--blackduck.url=\"https://blackduck.example.com\"".data <:+: cmd.data) ∧
      ¬ ("--blackduck.api.token=\"test-token\"".data <:+: cmd.data) ∧
      ¬ ("--detect.project.name=\"test-project\"".data <:+: cmd.data) := by
  refine ⟨rfl, by decide,
    "java -jar 'C:\\opt\\synopsys-detect-9.7.0.jar' --blackduck.url='https://blackduck.example.com' --blackduck.api.token='test-token' --detect.project.name='test-project'",
    by rfl, ?_, ?_, ?_⟩
  · intro hin
    exact absurd (hin.subset (by decide : '"' ∈ _)) (by decide)
  · intro hin
    exact absurd (hin.subset (by decide : '"' ∈ _)) (by decide)
  · intro hin
    exact absurd (hin.subset (by decide : '"' ∈ _)) (by decide)

/-- C13: the argument vector is a function of the ten configuration fields and
of `runtime.GOOS` alone: two configurations that agree on URL, token, project,
the four booleans, timeout, scan mode and extra properties (whatever their
LogLevel), on two hosts with the same GOOS (whatever their program look-up and
their children do), get the same argument vector. -/
theorem C13_command_depends_on_config_and_platform (h1 h2 : Host) (p q : Plugin)
    (hg : h1.GOOS = h2.GOOS)
    (e1 : p.BlackduckURL = q.BlackduckURL) (e2 : p.BlackduckToken = q.BlackduckToken)
    (e3 : p.BlackduckProject = q.BlackduckProject)
    (e4 : p.BlackduckOfflineMode = q.BlackduckOfflineMode)
    (e5 : p.BlackduckTestConnection = q.BlackduckTestConnection)
    (e6 : p.BlackduckOfflineBDIO = q.BlackduckOfflineBDIO)
    (e7 : p.BlackduckTrustCerts = q.BlackduckTrustCerts)
    (e8 : p.BlackduckTimeout = q.BlackduckTimeout)
    (e9 : p.BlackduckScanMode = q.BlackduckScanMode)
    (e10 : p.BLackduckProperties = q.BLackduckProperties) :
    builtArgs h1 p = builtArgs h2 q ∧ shellCommand h1 p = shellCommand h2 q := by
  have hadd : additionalArgs p = additionalArgs q := by
    simp only [additionalArgs, e4, e5, e6, e7, e8, e9, e10]
  have hb : builtArgs h1 p = builtArgs h2 q := by
    rw [builtArgs_eq, builtArgs_eq, hg, e1, e2, e3, hadd]
  exact ⟨hb, by unfold shellCommand; rw [hb]⟩

/-- C13 for the basic configuration and the same one with LogLevel `debug`, on
a host where `bash` is found and on one where it is not. -/
theorem C13_command_depends_on_config_and_platform_witness :
    builtArgs linuxHost basicPlugin = builtArgs noBashHost { basicPlugin with LogLevel := "debug" }
    ∧ shellCommand linuxHost basicPlugin
      = shellCommand noBashHost { basicPlugin with LogLevel := "debug" } :=
  C13_command_depends_on_config_and_platform linuxHost noBashHost basicPlugin
    { basicPlugin with LogLevel := "debug" } rfl rfl rfl rfl rfl rfl rfl rfl rfl rfl rfl

/-- C14: for non-empty URL, token and project the events of a run are the
scan-mode warning (if any), then the echo, then what running the command
causes (nothing, or the start of the one child), so the echo comes before any
child.  The echo is the only text written to standard output; it is
`Running command: `, the command as `cmd.String()` shows it, and a line end.
The token is a piece of that text, unchanged, and a configuration that
differs from this one only in its token has a different standard output. -/
theorem C14_echo_shows_token (h : Host) (p : Plugin)
    (hU : p.BlackduckURL ≠ "") (hT : p.BlackduckToken ≠ "") (hP : p.BlackduckProject ≠ "") :
    missingRequired p = false ∧
    ∃ c, buildCmd h p = .ok c ∧
      (runBlackDuckScan h p).1 =
        scanModeWarning p ++ Event.printed ("Running command: " ++ c.String ++ "\n")
          :: (c.Run h).1 ∧
      (∀ e ∈ scanModeWarning p, ∃ msg, e = Event.logged msg) ∧
      ((c.Run h).1 = [] ∨ (c.Run h).1 = [Event.spawned c.Path c.Args]) ∧
      echoed h p = ["Running command: " ++ c.String ++ "\n"] ∧
      p.BlackduckToken.data <:+: ("Running command: " ++ c.String ++ "\n").data ∧
      (∀ t, echoed h { p with BlackduckToken := t } = echoed h p → t = p.BlackduckToken) := by
  have hv := missingRequired_of_valid p hU hT hP
  obtain ⟨c, hc, hline⟩ := echo_line_cut_at_token h p
  have hrun := runBlackDuckScan_of_valid h p c hv hc
  have hecho := echoed_of_valid h p c hv hc
  refine ⟨hv, c, hc, ?_, scanModeWarning_logged p, Run_events h c, hecho, ?_, ?_⟩
  · rw [hrun]
    simp
  · rw [hline]
    exact ⟨(echoBeforeToken h p.BlackduckURL).data,
      (echoAfterToken h p.BlackduckProject (additionalArgs p)).data, by simp⟩
  · intro t ht
    by_cases hte : t = ""
    · have hm : missingRequired { p with BlackduckToken := t } = true :=
        missingRequired_of_empty _ (Or.inr (Or.inl hte))
      have he0 : echoed h { p with BlackduckToken := t } = [] := by
        simp [echoed, runBlackDuckScan, hm]
      rw [he0, hecho] at ht
      simp at ht
    · have hv2 : missingRequired { p with BlackduckToken := t } = false :=
        missingRequired_of_valid _ hU hte hP
      obtain ⟨c2, hc2, hline2⟩ := echo_line_cut_at_token h { p with BlackduckToken := t }
      rw [echoed_of_valid h _ c2 hv2 hc2, hecho, hline, hline2] at ht
      have hadd : additionalArgs { p with BlackduckToken := t } = additionalArgs p := rfl
      simp only [hadd, List.cons.injEq, and_true] at ht
      exact append_mid_cancel _ _ _ _ ht

/-- C14 at the basic configuration on the host where `bash` is at
`/bin/bash`: the standard output is one line, and it shows `test-token`. -/
theorem C14_echo_shows_token_witness :
    echoed linuxHost basicPlugin =
      ["Running command: /bin/bash -c java -jar /opt/synopsys-detect-9.7.0.jar --blackduck.url=\"https://blackduck.example.com\" --blackduck.api.token=\"test-token\" --detect.project.name=\"test-project\"\n"] ∧
    ∀ t, echoed linuxHost { basicPlugin with BlackduckToken := t } = echoed linuxHost basicPlugin →
      t = "test-token" := by
  obtain ⟨c, -, -, -, -, -, -, hinj⟩ :=
    (C14_echo_shows_token linuxHost basicPlugin (by decide) (by decide) (by decide)).2
  exact ⟨by rfl, hinj⟩

/-- C15, refuted: on a host where `bash` is not found the basic configuration
is valid, the command line is echoed, and no child process is started at all;
the run returns the look-up error, wrapped. -/
theorem C15_no_child_when_program_is_missing :
    missingRequired basicPlugin = false ∧
    spawnedChildren noBashHost basicPlugin = [] ∧
    runBlackDuckScan noBashHost basicPlugin =
      ([.printed "Running command: bash -c java -jar /opt/synopsys-detect-9.7.0.jar --blackduck.url=\"https://blackduck.example.com\" --blackduck.api.token=\"test-token\" --detect.project.name=\"test-project\"\n"],
       .returned (some (.wrapf
         "failed to execute Black Duck scan command: exec: \"bash\": executable file not found in $PATH"
         (.startError "exec: \"bash\": executable file not found in $PATH")))) := by
  refine ⟨by decide, by rfl, by rfl⟩

/-- C15, amended: for non-empty URL, token and project one call of
`runBlackDuckScan` runs the built command once, after the echo, so it starts
at most one child.  It starts exactly one, with the path and the argument
vector of the built command and as the last event, whenever the program is
found and the host starts the process, whether that child then ends with
status 0 or not; it starts none when the program is not found or the host
refuses to start it.  A failure of the run is returned as one error that
wraps its cause. -/
theorem C15_one_run_at_most_one_child (h : Host) (p : Plugin)
    (hU : p.BlackduckURL ≠ "") (hT : p.BlackduckToken ≠ "") (hP : p.BlackduckProject ≠ "") :
    missingRequired p = false ∧
    ∃ c, buildCmd h p = .ok c ∧
      (runBlackDuckScan h p).1 =
        scanModeWarning p ++ Event.printed ("Running command: " ++ c.String ++ "\n")
          :: (c.Run h).1 ∧
      (spawnedChildren h p).length ≤ 1 ∧
      (c.Err = none → (∀ reason, h.child c.Path c.Args ≠ .notStarted reason) →
        spawnedChildren h p = [(c.Path, c.Args)] ∧
        (runBlackDuckScan h p).1 =
          scanModeWarning p ++
            [Event.printed ("Running command: " ++ c.String ++ "\n"),
             Event.spawned c.Path c.Args]) ∧
      ((c.Err ≠ none ∨ ∃ reason, h.child c.Path c.Args = .notStarted reason) →
        spawnedChildren h p = []) ∧
      (∀ cause, (c.Run h).2 = some cause →
        (runBlackDuckScan h p).2 =
          .returned (some (.wrapf (execErrorPrefix ++ cause.Error) cause))) := by
  have hv := missingRequired_of_valid p hU hT hP
  obtain ⟨c, hc⟩ := buildCmd_ok h p
  have hrun := runBlackDuckScan_of_valid h p c hv hc
  have hsp := spawnedChildren_of_valid h p c hv hc
  have hev : (runBlackDuckScan h p).1 =
      scanModeWarning p ++ Event.printed ("Running command: " ++ c.String ++ "\n")
        :: (c.Run h).1 := by
    rw [hrun]
    simp
  refine ⟨hv, c, hc, hev, ?_, ?_, ?_, ?_⟩
  · rw [hsp]
    rcases Run_events h c with hr | hr <;> rw [hr] <;> simp
  · intro hE hs
    have hr := Run_events_of_started h c hE hs
    refine ⟨?_, ?_⟩
    · rw [hsp, hr]
      rfl
    · rw [hev, hr]
  · intro hn
    rw [hsp, Run_events_of_not_started h c hn]
    rfl
  · intro cause hcause
    rw [hrun]
    simp [hcause]

/-- C15 amended, on the host where `bash` is found and the child exits with
status 1: the basic configuration starts exactly one child, `/bin/bash` with
the built argument vector. -/
theorem C15_one_run_at_most_one_child_witness :
    spawnedChildren failingHost basicPlugin =
      [("/bin/bash", ["bash", "-c",
        "java -jar /opt/synopsys-detect-9.7.0.jar --blackduck.url=\"https://blackduck.example.com\" --blackduck.api.token=\"test-token\" --detect.project.name=\"test-project\""])] := by
  obtain ⟨c, hc, -, -, hone, -, -⟩ :=
    (C15_one_run_at_most_one_child failingHost basicPlugin (by decide) (by decide)
      (by decide)).2
  have hc2 : buildCmd failingHost basicPlugin = .ok
      { Path := "/bin/bash",
        Args := ["bash", "-c",
          "java -jar /opt/synopsys-detect-9.7.0.jar --blackduck.url=\"https://blackduck.example.com\" --blackduck.api.token=\"test-token\" --detect.project.name=\"test-project\""],
        Err := none } := by rfl
  rw [hc2] at hc
  injection hc with hc
  subst hc
  exact (hone rfl (fun reason hh => by simp [failingHost] at hh)).1

/-- C16, refuted: for the basic configuration the script passed to
`powershell.exe -Command` on the Windows host is not the command passed to
`bash -c` on the other host: the jar path and the quote characters differ. -/
theorem C16_windows_script_differs_from_posix_command :
    missingRequired basicPlugin = false ∧
    shellCommand windowsHost basicPlugin = some
      "java -jar 'C:\\opt\\synopsys-detect-9.7.0.jar' --blackduck.url='https://blackduck.example.com' --blackduck.api.token='test-token' --detect.project.name='test-project'" ∧
    shellCommand linuxHost basicPlugin = some
      "java -jar /opt/synopsys-detect-9.7.0.jar --blackduck.url=\"https://blackduck.example.com\" --blackduck.api.token=\"test-token\" --detect.project.name=\"test-project\"" ∧
    shellCommand windowsHost basicPlugin ≠ shellCommand linuxHost basicPlugin := by
  refine ⟨by decide, by rfl, by rfl, by decide⟩

/-- C16, amended: the Windows and non-Windows builders share the suffix of
optional flags and nothing else of the command string.  For non-empty URL,
token and project the Windows script is the quoted jar path
`'C:\opt\synopsys-detect-9.7.0.jar'` with single-quoted values, the command of
other hosts is the jar path `/opt/synopsys-detect-9.7.0.jar` with double-quoted
values, both are followed by the same suffix, and the two strings are never
equal. -/
theorem C16_builders_share_only_the_suffix (hw hx : Host) (p : Plugin)
    (hgw : hw.GOOS = "windows") (hgx : hx.GOOS ≠ "windows")
    (hU : p.BlackduckURL ≠ "") (hT : p.BlackduckToken ≠ "") (hP : p.BlackduckProject ≠ "") :
    missingRequired p = false ∧
    shellCommand hw p = some
      ("java -jar 'C:\\opt\\synopsys-detect-9.7.0.jar' --blackduck.url='" ++ p.BlackduckURL ++
        "' --blackduck.api.token='" ++ p.BlackduckToken ++
        "' --detect.project.name='" ++ p.BlackduckProject ++ "'" ++ additionalArgs p) ∧
    shellCommand hx p = some
      ("java -jar /opt/synopsys-detect-9.7.0.jar --blackduck.url=\"" ++ p.BlackduckURL ++
        "\" --blackduck.api.token=\"" ++ p.BlackduckToken ++
        "\" --detect.project.name=\"" ++ p.BlackduckProject ++ "\"" ++ additionalArgs p) ∧
    shellCommand hw p ≠ shellCommand hx p := by
  have hw1 : shellCommand hw p = some
      (windowsScript p.BlackduckURL p.BlackduckToken p.BlackduckProject ++ additionalArgs p) := by
    rw [shellCommand_eq, additionalArgs_eq_optionalFlags, if_pos hgw]
  have hx1 : shellCommand hx p = some
      (posixCommand p.BlackduckURL p.BlackduckToken p.BlackduckProject ++ additionalArgs p) := by
    rw [shellCommand_eq, additionalArgs_eq_optionalFlags, if_neg hgx]
  refine ⟨missingRequired_of_valid p hU hT hP, hw1, hx1, ?_⟩
  rw [hw1, hx1]
  intro heq
  have hd := congrArg String.data (Option.some.inj heq)
  simp [windowsScript, posixCommand] at hd

/-- C16 amended, at the configuration of the test "offline mode" on the two
example hosts: both command strings end in the same offline flag and they
differ. -/
theorem C16_builders_share_only_the_suffix_witness :
    shellCommand windowsHost offlinePlugin = some
      "java -jar 'C:\\opt\\synopsys-detect-9.7.0.jar' --blackduck.url='https://blackduck.example.com' --blackduck.api.token='test-token' --detect.project.name='test-project' --blackduck.offline.mode=true" ∧
    shellCommand linuxHost offlinePlugin = some
      "java -jar /opt/synopsys-detect-9.7.0.jar --blackduck.url=\"https://blackduck.example.com\" --blackduck.api.token=\"test-token\" --detect.project.name=\"test-project\" --blackduck.offline.mode=true" ∧
    shellCommand windowsHost offlinePlugin ≠ shellCommand linuxHost offlinePlugin :=
  have hall := C16_builders_share_only_the_suffix windowsHost linuxHost offlinePlugin
    (by decide) (by decide) (by decide) (by decide) (by decide)
  ⟨hall.2.1.trans rfl, hall.2.2.1.trans rfl, hall.2.2.2⟩

/-- C17: on hosts that are not Windows, for two configurations with non-empty
URL, token and project that hold no double-quote character, equal command
strings force the same URL, the same token, the same project and the same
suffix of optional flags.  Without the hypothesis on double quotes this
fails: `collidingPluginA` and `collidingPluginB` differ in URL and in token
and get the same command string. -/
theorem C17_command_injective_without_quotes (h1 h2 : Host) (p q : Plugin)
    (hg1 : h1.GOOS ≠ "windows") (hg2 : h2.GOOS ≠ "windows")
    (hpU : p.BlackduckURL ≠ "") (hpT : p.BlackduckToken ≠ "") (hpP : p.BlackduckProject ≠ "")
    (hqU : q.BlackduckURL ≠ "") (hqT : q.BlackduckToken ≠ "") (hqP : q.BlackduckProject ≠ "")
    (npU : '"' ∉ p.BlackduckURL.data) (npT : '"' ∉ p.BlackduckToken.data)
    (npP : '"' ∉ p.BlackduckProject.data)
    (nqU : '"' ∉ q.BlackduckURL.data) (nqT : '"' ∉ q.BlackduckToken.data)
    (nqP : '"' ∉ q.BlackduckProject.data)
    (heq : shellCommand h1 p = shellCommand h2 q) :
    missingRequired p = false ∧ missingRequired q = false ∧
    p.BlackduckURL = q.BlackduckURL ∧ p.BlackduckToken = q.BlackduckToken ∧
    p.BlackduckProject = q.BlackduckProject ∧ additionalArgs p = additionalArgs q ∧
    (shellCommand linuxHost collidingPluginA = shellCommand linuxHost collidingPluginB ∧
      collidingPluginA.BlackduckURL ≠ collidingPluginB.BlackduckURL ∧
      collidingPluginA.BlackduckToken ≠ collidingPluginB.BlackduckToken) := by
  have hp1 : shellCommand h1 p = some
      (posixCommand p.BlackduckURL p.BlackduckToken p.BlackduckProject ++ additionalArgs p) := by
    rw [shellCommand_eq, additionalArgs_eq_optionalFlags, if_neg hg1]
  have hq1 : shellCommand h2 q = some
      (posixCommand q.BlackduckURL q.BlackduckToken q.BlackduckProject ++ additionalArgs q) := by
    rw [shellCommand_eq, additionalArgs_eq_optionalFlags, if_neg hg2]
  rw [hp1, hq1] at heq
  have hcmd := Option.some.inj heq
  have hread := congrArg readMandatory hcmd
  rw [readMandatory_posixCommand _ _ _ _ npU npT npP,
    readMandatory_posixCommand _ _ _ _ nqU nqT nqP] at hread
  simp only [Option.some.injEq, Prod.mk.injEq] at hread
  exact ⟨missingRequired_of_valid p hpU hpT hpP, missingRequired_of_valid q hqU hqT hqP,
    hread.1, hread.2.1, hread.2.2.1, hread.2.2.2, by rfl, by decide, by decide⟩

/-- C17 for the configuration of the test "timeout" and the same one with
LogLevel `debug`, which get the same command string. -/
theorem C17_command_injective_without_quotes_witness :
    ({ basicPlugin with BlackduckTimeout := 300 } : Plugin).BlackduckToken =
        ({ basicPlugin with BlackduckTimeout := 300, LogLevel := "debug" } : Plugin).BlackduckToken ∧
    additionalArgs { basicPlugin with BlackduckTimeout := 300 } =
      additionalArgs { basicPlugin with BlackduckTimeout := 300, LogLevel := "debug" } :=
  have hall := C17_command_injective_without_quotes linuxHost noBashHost
    { basicPlugin with BlackduckTimeout := 300 }
    { basicPlugin with BlackduckTimeout := 300, LogLevel := "debug" }
    (by decide) (by decide) (by decide) (by decide) (by decide) (by decide) (by decide)
    (by decide) (by decide) (by decide) (by decide) (by decide) (by decide) (by decide)
    (by rfl)
  ⟨hall.2.2.2.1, hall.2.2.2.2.2.1⟩

/-- C18: the helper `containsString` does not decide containment.  It answers
true for the URL of the tests and the offline flag, which is no part of that
URL; it answers false for a string and itself, and for the empty text, which
are contained. -/
theorem C18_containsString_is_not_containment :
    containsString "https://blackduck.example.com" "--blackduck.offline.mode=true" = true ∧
    ¬ ("--blackduck.offline.mode=true".data <:+: "https://blackduck.example.com".data) ∧
    containsString "test-token" "test-token" = false ∧
    "test-token".data <:+: "test-token".data ∧
    containsString "test-token" "" = false ∧
    "".data <:+: "test-token".data := by
  refine ⟨by decide, ?_, by decide, List.infix_refl _, by decide, List.nil_infix⟩
  intro hin
  exact absurd (hin.subset (by decide : '=' ∈ _)) (by decide)

end DroneSynopsysDetect
